import Mathlib

/-!
Verification of the manga-agent comic-generation pipeline.

Shallow embedding of the TypeScript sources:
* `src/schema.ts` (the zod data model),
* `src/comic-generator.ts` (the generation pipeline),
* `src/index.tsx` (the terminal UI state machine).

External collaborators (the language-model service, the Replicate image
service, the network and the wall clock) are modelled as an `Env` of
response oracles; the filesystem is modelled as an association list from
structured paths to file contents, and every model call / file write is
additionally recorded in an event trace so that call counts and call
ordering are observable.
-/

/-! ## Data model (src/schema.ts) -/

/-- One dialogue line of a panel (`dialogue` array elements in `ComicPanelSchema`). -/
structure DialogueLine where
  character : String
  text : String
deriving DecidableEq

/-- `ComicPanelSchema`: `id` is `z.number()` (no uniqueness or position
constraint), `dialogue` is optional. -/
structure ComicPanel where
  id : Int
  description : String
  characters : List String
  setting : String
  dialogue : Option (List DialogueLine)
  visualStyle : String
  imagePrompt : String
deriving DecidableEq

/-- Character entries of `ComicStorySchema.characters`. -/
structure CharacterSpec where
  name : String
  description : String
  visualDescription : String
deriving DecidableEq

/-- `ComicStorySchema`. -/
structure ComicStory where
  title : String
  genre : String
  theme : String
  characters : List CharacterSpec
  panels : List ComicPanel
  artStyle : String
deriving DecidableEq

/-- `ComicGenerationRequestSchema`.  `panelCount` is a JS number; `none`
models `NaN` (the UI can produce `NaN` via `parseInt` on non-numeric
input, and the request is built by a plain cast, not by zod parsing). -/
structure ComicGenerationRequest where
  prompt : String
  panelCount : Option Int
  artStyle : Option String
  genre : Option String
deriving DecidableEq

/-- Elements of `ComicGenerationResultSchema.generatedImages`. -/
structure GeneratedImage where
  panelId : Int
  imageUrl : String
  imagePath : String
deriving DecidableEq

/-- `ComicGenerationResultSchema.metadata`. -/
structure ResultMetadata where
  generatedAt : String
  totalPanels : Nat
  processingTimeMs : Int
deriving DecidableEq

/-- `ComicGenerationResultSchema`. -/
structure ComicGenerationResult where
  story : ComicStory
  generatedImages : List GeneratedImage
  metadata : ResultMetadata
deriving DecidableEq

/-! ## JS primitives used by the UI (src/index.tsx) -/

/-- Value of a hexadecimal (hence also decimal) digit character. -/
def hexDigitVal (c : Char) : Option Nat :=
  if '0' ≤ c ∧ c ≤ '9' then some (c.toNat - '0'.toNat)
  else if 'a' ≤ c ∧ c ≤ 'f' then some (c.toNat - 'a'.toNat + 10)
  else if 'A' ≤ c ∧ c ≤ 'F' then some (c.toNat - 'A'.toNat + 10)
  else none

/-- Accumulate the longest leading run of digits valid in `base`;
`none` when no digit at all was consumed (JS `parseInt` returns `NaN`). -/
def takeDigits (base : Nat) : List Char → Nat → Bool → Option Nat
  | [], acc, seen => if seen then some acc else none
  | c :: cs, acc, seen =>
    match hexDigitVal c with
    | some v =>
      if v < base then takeDigits base cs (acc * base + v) true
      else if seen then some acc else none
    | none => if seen then some acc else none

/-- JS `String.prototype.trim()`: strip leading and trailing whitespace
(modelled with `Char.isWhitespace`, which covers the whitespace the UI
can produce). -/
def jsTrim (s : String) : String :=
  ⟨((s.data.dropWhile Char.isWhitespace).reverse.dropWhile Char.isWhitespace).reverse⟩

/-- JS `parseInt(s)` with radix unspecified: skip whitespace, optional
sign, `0x`/`0X` selects base 16, otherwise base 10; `none` models `NaN`. -/
def jsParseInt (s : String) : Option Int :=
  match (jsTrim s).toList with
  | '-' :: rest => jsParseIntCore rest |>.map (fun n => -(n : Int))
  | '+' :: rest => jsParseIntCore rest |>.map (fun n => (n : Int))
  | rest => jsParseIntCore rest |>.map (fun n => (n : Int))
where
  jsParseIntCore : List Char → Option Nat
    | '0' :: 'x' :: rest => takeDigits 16 rest 0 false
    | '0' :: 'X' :: rest => takeDigits 16 rest 0 false
    | cs => takeDigits 10 cs 0 false

/-- JS `Math.min` on two numbers; `NaN` (modelled `none`) is absorbing. -/
def jsMin (a b : Option Int) : Option Int :=
  match a, b with
  | some x, some y => some (min x y)
  | _, _ => none

/-- JS `Math.max` on two numbers; `NaN` (modelled `none`) is absorbing. -/
def jsMax (a b : Option Int) : Option Int :=
  match a, b with
  | some x, some y => some (max x y)
  | _, _ => none

/-! ## Terminal UI state machine (src/index.tsx) -/

/-- The four UI screens (`AppState.step`). -/
inductive Step
  | promptStep
  | optionsStep
  | processingStep
  | doneStep
deriving DecidableEq

/-- `AppState` of the ink `App` component.  `panelCount` is a JS number
(`none` = `NaN`); absent optional fields are `none`. -/
structure AppState where
  step : Step
  prompt : String
  currentInput : String
  panelCount : Option Int
  artStyle : Option String
  genre : Option String
  result : Option ComicGenerationResult
  error : Option String
deriving DecidableEq

/-- The `useState` initializer of `App`. -/
def initialState : AppState :=
  { step := .promptStep, prompt := "", currentInput := "", panelCount := some 4,
    artStyle := none, genre := none, result := none, error := none }

/-- `handlePromptSubmit`: store the prompt, go to the options screen. -/
def handlePromptSubmit (value : String) (s : AppState) : AppState :=
  { s with prompt := value, step := .optionsStep, currentInput := "" }

/-- `handleOptionsSubmit`: `value.trim() ? parseInt(value.trim()) : 4`,
then `Math.max(1, Math.min(12, panelCount))`, and go to processing. -/
def handleOptionsSubmit (value : String) (s : AppState) : AppState :=
  let pc := if jsTrim value ≠ "" then jsParseInt (jsTrim value) else some 4
  { s with panelCount := jsMax (some 1) (jsMin (some 12) pc),
           step := .processingStep, currentInput := "" }

/-- `handleDoneSubmit`: a full state replacement (no `...prev` spread), so
`result`, `error`, `artStyle` and `genre` are all dropped. -/
def handleDoneSubmit (value : String) (_s : AppState) : AppState :=
  { step := .promptStep, prompt := "", currentInput := value, panelCount := some 4,
    artStyle := none, genre := none, result := none, error := none }

/-- The request object built in the `processing` effect of `App`. -/
def buildRequest (s : AppState) : ComicGenerationRequest :=
  { prompt := s.prompt, panelCount := s.panelCount, artStyle := s.artStyle, genre := s.genre }

/-! ## External world model for the pipeline (src/comic-generator.ts) -/

deriving instance DecidableEq for Except

/-- The JS value found at `(await replicate.run(...)).url().href`.
`strVal` is a string (an empty string is falsy in JS, so it fails the
`!output` guard), `nonStringVal` is any non-string value with the given
truthiness, `missingVal` is `undefined`/`null`. -/
inductive ReplicateHref
  | strVal (s : String)
  | nonStringVal (truthy : Bool)
  | missingVal
deriving DecidableEq

/-- Outcome of one `downloadImage` network+filesystem interaction:
a 200 response whose body is piped to the file, a non-200 status code,
a write-stream `error` event, or an `error` event on the request itself. -/
inductive DownloadOutcome
  | ok (bytes : String)
  | badStatus (code : Nat)
  | writeErr (msg : String)
  | requestErr (msg : String)
deriving DecidableEq

/-- Structured on-disk paths used by one run.  `render` (below) maps them
to the literal path strings the code builds. -/
inductive FsPath
  | storyJson (dir : String)
  | panelJson (dir : String) (id : Int)
  | resultJson (dir : String)
  | panelImage (idStr : String)
deriving DecidableEq

/-- The object serialized by `createPanelFile` into `panel-<id>.json`. -/
structure PanelFileData where
  id : Int
  description : String
  characters : List String
  setting : String
  dialogue : Option (List DialogueLine)
  visualStyle : String
  imagePrompt : String
  detailedVisualDescription : String
  artStyle : String
deriving DecidableEq

/-- Contents of files written by the pipeline.  `emptyContent` is the
empty file left behind by `fs.createWriteStream` when the download is
rejected before any byte is piped. -/
inductive FileContent
  | storyContent (s : ComicStory)
  | panelContent (d : PanelFileData)
  | resultContent (r : ComicGenerationResult)
  | imageContent (bytes : String)
  | emptyContent
deriving DecidableEq

/-- The fixed input object passed to `replicate.run` for each panel. -/
structure FluxInput where
  prompt : String
  aspect : String
  outputFormat : String
  outputQuality : Nat
  safetyTolerance : Nat
deriving DecidableEq

/-- `replicate.run` input with the constants of `generateImageWithFlux`. -/
def fluxInputFor (prompt : String) : FluxInput :=
  { prompt := prompt, aspect := "16:9", outputFormat := "jpg",
    outputQuality := 90, safetyTolerance := 2 }

/-- Observable events of one run, in order of occurrence. -/
inductive Event
  | textCall (idx : Nat) (prompt : String)
  | fluxCall (idx : Nat) (input : FluxInput) (panelId : String)
  | downloadCall (idx : Nat) (url : String) (target : FsPath)
  | writeFile (target : FsPath) (content : FileContent)
  | unlinkFile (target : FsPath)
deriving DecidableEq

/-- Oracles for all external collaborators of one run.  `textResp` is
indexed by the number of `generateText` calls already made, so repeated
calls with the same prompt are independent (no caching); likewise
`fluxResp` and `downloadResp` by their own call counters.  `isoDir` and
`isoGen` are the two `new Date().toISOString()` reads; `startMs`/`endMs`
the two `Date.now()` reads. -/
structure Env where
  cwd : String
  storyResp : String → Except String ComicStory
  textResp : Nat → String → Except String String
  fluxResp : Nat → Except String ReplicateHref
  downloadResp : Nat → DownloadOutcome
  isoDir : String
  isoGen : String
  startMs : Int
  endMs : Int

/-- Mutable world threaded through the pipeline: the file system (an
association list with distinct keys), the three call counters, and the
event trace. -/
structure World where
  fs : List (FsPath × FileContent)
  textCalls : Nat
  fluxCalls : Nat
  downloadCalls : Nat
  trace : List Event
deriving DecidableEq

/-- Remove every entry at path `p` (`fs.unlink`, and the overwrite step
of a write). -/
def fsErase : List (FsPath × FileContent) → FsPath → List (FsPath × FileContent)
  | [], _ => []
  | e :: t, p => if e.1 = p then fsErase t p else e :: fsErase t p

/-- Write (create or overwrite) a file. -/
def fsWrite (fs : List (FsPath × FileContent)) (p : FsPath) (c : FileContent) :
    List (FsPath × FileContent) :=
  (p, c) :: fsErase fs p

/-- Does a file exist at path `p`? -/
def fsHas : List (FsPath × FileContent) → FsPath → Bool
  | [], _ => false
  | e :: t, p => if e.1 = p then true else fsHas t p

/-- Content of the file at path `p`, if any. -/
def fsGet : List (FsPath × FileContent) → FsPath → Option FileContent
  | [], _ => none
  | e :: t, p => if e.1 = p then some e.2 else fsGet t p

/-- Write a file and log the write. -/
def worldWrite (w : World) (p : FsPath) (c : FileContent) : World :=
  { w with fs := fsWrite w.fs p c, trace := w.trace ++ [.writeFile p c] }

/-- Unlink a file and log the unlink. -/
def worldErase (w : World) (p : FsPath) : World :=
  { w with fs := fsErase w.fs p, trace := w.trace ++ [.unlinkFile p] }

/-- The world at process start: empty workspace, no calls made. -/
def emptyWorld : World :=
  { fs := [], textCalls := 0, fluxCalls := 0, downloadCalls := 0, trace := [] }

/-! ## Path strings (node:path usage in src/comic-generator.ts) -/

/-- `path.join(process.cwd(), ".workspace")` (`ensureWorkspaceDirectory`). -/
def workspaceDirOf (cwd : String) : String := cwd ++ "/" ++ ".workspace"

/-- `path.join(workspaceDir, "images")`. -/
def imagesDirOf (cwd : String) : String := workspaceDirOf cwd ++ "/" ++ "images"

/-- `path.join(workspaceDir, "comics")`. -/
def comicsDirOf (cwd : String) : String := workspaceDirOf cwd ++ "/" ++ "comics"

/-- Strip the prefix `pre` from `s`, or `none` when `pre` is not a prefix. -/
def stripPre : List Char → List Char → Option (List Char)
  | [], s => some s
  | _ :: _, [] => none
  | c :: cs, d :: ds => if c = d then stripPre cs ds else none

/-- `path.relative(cwd, p)`, modelled for the only case the pipeline
exercises: `p` lies strictly below `cwd`, so the result is `p` with the
`cwd ++ "/"` prefix removed (otherwise `p` is returned unchanged). -/
def relativeTo (cwd p : String) : String :=
  match stripPre (cwd.data ++ ['/']) p.data with
  | some rest => ⟨rest⟩
  | none => p

/-- The literal path string of a structured path, as the code builds it. -/
def FsPath.render (cwd : String) : FsPath → String
  | .storyJson dir => comicsDirOf cwd ++ "/" ++ dir ++ "/" ++ "story.json"
  | .panelJson dir id => comicsDirOf cwd ++ "/" ++ dir ++ "/" ++ ("panel-" ++ toString id ++ ".json")
  | .resultJson dir => comicsDirOf cwd ++ "/" ++ dir ++ "/" ++ "result.json"
  | .panelImage idStr => imagesDirOf cwd ++ "/" ++ ("panel-" ++ idStr ++ ".jpg")

/-- `new Date().toISOString().replace(/[:.]/g, "-")`: colons AND periods
become dashes (the regex character class is `[:.]`). -/
def sanitizeTimestamp (s : String) : String :=
  ⟨s.data.map (fun c => if c = ':' ∨ c = '.' then '-' else c)⟩

/-- Modelled from the spec: the directory-name transform as §6 of the
spec words it, `ISO8601-with-colons-replaced-by-dashes` — only colons are
replaced.  Used to compare the spec layout against the code layout. -/
def sanitizeColonsOnly (s : String) : String :=
  ⟨s.data.map (fun c => if c = ':' then '-' else c)⟩

/-- The timestamped comic directory name chosen by `generateComic`. -/
def comicDirName (env : Env) : String := "comic-" ++ sanitizeTimestamp env.isoDir

/-! ## Prompt construction (src/comic-generator.ts) -/

/-- System instruction of `generateDetailedImageDescription` (constant). -/
def detailSystemPrompt : String :=
  "You are an expert manga artist and illustrator. Create extremely detailed visual descriptions for comic panels that could be used as prompts for AI image generation. Focus on:\n- Specific visual details, composition, and framing\n- Character positioning and expressions\n- Environmental details and atmosphere\n- Art style elements and rendering techniques\n- Color palette suggestions\n- Lighting and shadows"

/-- The user prompt of `generateDetailedImageDescription`, instantiated
with the panel fields and the story art style. -/
def detailPromptFor (panel : ComicPanel) (artStyle : String) : String :=
  "Create a detailed visual description for this comic panel:\n\nPanel Description: "
    ++ panel.description
    ++ "\nCharacters: " ++ String.intercalate ", " panel.characters
    ++ "\nSetting: " ++ panel.setting
    ++ "\nVisual Style: " ++ panel.visualStyle
    ++ "\nArt Style: " ++ artStyle
    ++ "\nOriginal Image Prompt: " ++ panel.imagePrompt
    ++ "\n\nProvide a comprehensive visual description that an artist could use to create this panel, including specific details about composition, character poses, expressions, background elements, and artistic techniques."

/-- JS truthiness on an optional string field (`undefined` and `""` falsy). -/
def optText (pre : String) (v : Option String) : String :=
  match v with
  | some s => if s = "" then "" else pre ++ s
  | none => ""

/-- JS number rendering of `panelCount` (`NaN` for the `none` case). -/
def panelCountText (pc : Option Int) : String :=
  match pc with
  | some n => toString n
  | none => "NaN"

/-- The user prompt of `generateComicStory`. -/
def storyUserPrompt (request : ComicGenerationRequest) : String :=
  "Create a " ++ panelCountText request.panelCount
    ++ "-panel comic story based on this prompt: \"" ++ request.prompt ++ "\"\n\n"
    ++ optText "Genre: " request.genre ++ "\n"
    ++ optText "Art Style: " request.artStyle ++ "\n\n"
    ++ "Focus on creating:\n1. A compelling story arc that fits the panel count\n2. Consistent character designs with detailed visual descriptions\n3. Varied and dynamic panel compositions\n4. Clear, engaging dialogue when appropriate\n5. Detailed image prompts optimized for Flux image generation"

/-! ## Pipeline (src/comic-generator.ts) -/

/-- `generateDetailedImageDescription`: one `generateText` call; bumps the
text-call counter and logs the call. -/
def generateDetailedImageDescription (env : Env) (panel : ComicPanel) (artStyle : String)
    (w : World) : World × Except String String :=
  let pr := detailPromptFor panel artStyle
  ({ w with textCalls := w.textCalls + 1, trace := w.trace ++ [.textCall w.textCalls pr] },
   env.textResp w.textCalls pr)

/-- The `panelData` object literal of `createPanelFile`. -/
def panelDataOf (panel : ComicPanel) (artStyle : String) (detailed : String) : PanelFileData :=
  { id := panel.id, description := panel.description, characters := panel.characters,
    setting := panel.setting, dialogue := panel.dialogue, visualStyle := panel.visualStyle,
    imagePrompt := panel.imagePrompt, detailedVisualDescription := detailed,
    artStyle := artStyle }

/-- `createPanelFile`: detail the panel once, serialize `panelData` to
`panel-<id>.json` in the comic directory, return the file path. -/
def createPanelFile (env : Env) (panel : ComicPanel) (artStyle : String) (dir : String)
    (w : World) : World × Except String String :=
  match generateDetailedImageDescription env panel artStyle w with
  | (w1, .error e) => (w1, .error e)
  | (w1, .ok detailed) =>
    (worldWrite w1 (.panelJson dir panel.id) (.panelContent (panelDataOf panel artStyle detailed)),
     .ok ((FsPath.panelJson dir panel.id).render env.cwd))

/-- `downloadImage(url, filepath)`.  `fs.createWriteStream` creates the
file up front; a 200 response pipes the body into it; a non-200 status
rejects WITHOUT unlinking; a write-stream error unlinks the partial file
then rejects; a request error rejects without unlinking. -/
def downloadImage (outcome : DownloadOutcome) (p : FsPath) (w : World) :
    World × Except String Unit :=
  match outcome with
  | .ok bytes => (worldWrite w p (.imageContent bytes), .ok ())
  | .badStatus code =>
    (worldWrite w p .emptyContent, .error ("Failed to download image: " ++ toString code))
  | .writeErr msg => (worldErase (worldWrite w p .emptyContent) p, .error msg)
  | .requestErr msg => (worldWrite w p .emptyContent, .error msg)

/-- The `!output || typeof output !== 'string'` guard on the href. -/
def hrefToUrl : ReplicateHref → Except String String
  | .strVal s => if s = "" then .error "Invalid output from Replicate API" else .ok s
  | .nonStringVal _ => .error "Invalid output from Replicate API"
  | .missingVal => .error "Invalid output from Replicate API"

/-- `generateImageWithFlux(prompt, panelId, imagesDir)`: one
`replicate.run` call, the href guard, then `downloadImage` into
`panel-<panelId>.jpg`; returns the absolute file path.  The surrounding
try/catch only logs and rethrows. -/
def generateImageWithFlux (env : Env) (prompt : String) (panelId : String)
    (w : World) : World × Except String String :=
  let w1 := { w with fluxCalls := w.fluxCalls + 1,
                     trace := w.trace ++ [.fluxCall w.fluxCalls (fluxInputFor prompt) panelId] }
  match env.fluxResp w.fluxCalls with
  | .error e => (w1, .error e)
  | .ok href =>
    match hrefToUrl href with
    | .error e => (w1, .error e)
    | .ok url =>
      let p := FsPath.panelImage panelId
      let w2 := { w1 with downloadCalls := w1.downloadCalls + 1,
                          trace := w1.trace ++ [.downloadCall w1.downloadCalls url p] }
      match downloadImage (env.downloadResp w1.downloadCalls) p w2 with
      | (w3, .ok _) => (w3, .ok (p.render env.cwd))
      | (w3, .error e) => (w3, .error e)

/-- The `generatedImages.push({...})` record for one panel. -/
def imgRec (cwd : String) (panel : ComicPanel) : GeneratedImage :=
  { panelId := panel.id,
    imageUrl := "file://" ++ (FsPath.panelImage (toString panel.id)).render cwd,
    imagePath := relativeTo cwd ((FsPath.panelImage (toString panel.id)).render cwd) }

/-- Body of one iteration of the panel loop of `generateComic`: persist
the panel file, re-detail the panel, render and download its image, and
build the generated-image record.  The try/catch rethrows, so any error
aborts the loop. -/
def panelStep (env : Env) (art dir : String) (panel : ComicPanel) (w : World) :
    World × Except String GeneratedImage :=
  match createPanelFile env panel art dir w with
  | (w1, .error e) => (w1, .error e)
  | (w1, .ok _) =>
    match generateDetailedImageDescription env panel art w1 with
    | (w2, .error e) => (w2, .error e)
    | (w2, .ok detailed) =>
      match generateImageWithFlux env detailed (toString panel.id) w2 with
      | (w3, .error e) => (w3, .error e)
      | (w3, .ok imagePath) =>
        (w3, .ok { panelId := panel.id, imageUrl := "file://" ++ imagePath,
                   imagePath := relativeTo env.cwd imagePath })

/-- The `for` loop of `generateComic`, strictly in list order. -/
def processPanels (env : Env) (art dir : String) :
    List ComicPanel → World → List GeneratedImage →
    World × Except String (List GeneratedImage)
  | [], w, acc => (w, .ok acc)
  | panel :: rest, w, acc =>
    match panelStep env art dir panel w with
    | (w1, .error e) => (w1, .error e)
    | (w1, .ok img) => processPanels env art dir rest w1 (acc ++ [img])

/-- The world right after `story.json` is written: the first filesystem
write of a run, before the panel loop starts. -/
def initWorld (env : Env) (story : ComicStory) : World :=
  worldWrite emptyWorld (.storyJson (comicDirName env)) (.storyContent story)

/-- `generateComic(request)`: generate the story (`generateObject` with
`storyUserPrompt`), write `story.json` into the timestamped comic
directory, process every panel in order, then write and return
`result.json`.  Any failure propagates and skips the result write. -/
def generateComic (env : Env) (request : ComicGenerationRequest) :
    World × Except String ComicGenerationResult :=
  match env.storyResp (storyUserPrompt request) with
  | .error e => (emptyWorld, .error e)
  | .ok story =>
    let dir := comicDirName env
    let w0 := initWorld env story
    match processPanels env story.artStyle dir story.panels w0 [] with
    | (w, .error e) => (w, .error e)
    | (w, .ok images) =>
      let res : ComicGenerationResult :=
        { story := story, generatedImages := images,
          metadata := { generatedAt := env.isoGen, totalPanels := story.panels.length,
                        processingTimeMs := env.endMs - env.startMs } }
      (worldWrite w (.resultJson dir) (.resultContent res), .ok res)

/-! ## Derived observers -/

/-- Is this path a `panel-<id>.json` file of comic directory `dir`? -/
def isPanelJsonOf (dir : String) : FsPath → Bool
  | .panelJson d _ => decide (d = dir)
  | _ => false

/-- Is this path an image file under the images directory? -/
def isImagePath : FsPath → Bool
  | .panelImage _ => true
  | _ => false

/-- Number of files whose path satisfies `pred`. -/
def fsCount (pred : FsPath → Bool) : List (FsPath × FileContent) → Nat
  | [] => 0
  | e :: t => (if pred e.1 then 1 else 0) + fsCount pred t

/-- Number of `panel-<id>.json` files in comic directory `dir`. -/
def countPanelJson (fs : List (FsPath × FileContent)) (dir : String) : Nat :=
  fsCount (isPanelJsonOf dir) fs

/-- Number of image files in the images directory. -/
def countImages (fs : List (FsPath × FileContent)) : Nat :=
  fsCount isImagePath fs


/-! ## Filesystem lemmas -/

theorem fsHas_write_self (fs : List (FsPath × FileContent)) (p : FsPath) (c : FileContent) :
    fsHas (fsWrite fs p c) p = true := by
  simp [fsHas, fsWrite]

theorem fsHas_erase_self (fs : List (FsPath × FileContent)) (p : FsPath) :
    fsHas (fsErase fs p) p = false := by
  induction fs with
  | nil => rfl
  | cons e t ih =>
    by_cases he : e.1 = p <;> simp [fsErase, fsHas, he, ih]

theorem fsHas_erase_other (fs : List (FsPath × FileContent)) (p q : FsPath) (h : q ≠ p) :
    fsHas (fsErase fs p) q = fsHas fs q := by
  induction fs with
  | nil => rfl
  | cons e t ih =>
    by_cases he : e.1 = p
    · have : e.1 ≠ q := by rw [he]; exact fun hq => h hq.symm
      simp [fsErase, fsHas, he, this, ih, Ne.symm h]
    · simp [fsErase, fsHas, he, ih]

theorem fsHas_write_other (fs : List (FsPath × FileContent)) (p q : FsPath) (c : FileContent)
    (h : q ≠ p) : fsHas (fsWrite fs p c) q = fsHas fs q := by
  have : p ≠ q := fun hq => h hq.symm
  simp [fsWrite, fsHas, this, fsHas_erase_other fs p q h]

theorem fsHas_write_mono (fs : List (FsPath × FileContent)) (p q : FsPath) (c : FileContent)
    (h : fsHas fs q = true) : fsHas (fsWrite fs p c) q = true := by
  by_cases hqp : q = p
  · subst hqp; exact fsHas_write_self fs q c
  · rw [fsHas_write_other fs p q c hqp]; exact h

theorem fsHas_write_sub (fs : List (FsPath × FileContent)) (p q : FsPath) (c : FileContent)
    (h : fsHas (fsWrite fs p c) q = true) : q = p ∨ fsHas fs q = true := by
  by_cases hqp : q = p
  · exact Or.inl hqp
  · rw [fsHas_write_other fs p q c hqp] at h; exact Or.inr h

theorem fsHas_erase_sub (fs : List (FsPath × FileContent)) (p q : FsPath)
    (h : fsHas (fsErase fs p) q = true) : fsHas fs q = true := by
  by_cases hqp : q = p
  · rw [hqp, fsHas_erase_self] at h; cases h
  · rw [fsHas_erase_other fs p q hqp] at h; exact h

theorem fsGet_write_self (fs : List (FsPath × FileContent)) (p : FsPath) (c : FileContent) :
    fsGet (fsWrite fs p c) p = some c := by
  simp [fsGet, fsWrite]

theorem fsGet_erase_other (fs : List (FsPath × FileContent)) (p q : FsPath) (h : q ≠ p) :
    fsGet (fsErase fs p) q = fsGet fs q := by
  induction fs with
  | nil => rfl
  | cons e t ih =>
    by_cases he : e.1 = p
    · have : e.1 ≠ q := by rw [he]; exact fun hq => h hq.symm
      simp [fsErase, fsGet, he, this, ih, Ne.symm h]
    · simp [fsErase, fsGet, he, ih]

theorem fsGet_write_other (fs : List (FsPath × FileContent)) (p q : FsPath) (c : FileContent)
    (h : q ≠ p) : fsGet (fsWrite fs p c) q = fsGet fs q := by
  have : p ≠ q := fun hq => h hq.symm
  simp [fsWrite, fsGet, this, fsGet_erase_other fs p q h]

theorem fsHas_of_fsGet (fs : List (FsPath × FileContent)) (p : FsPath) (c : FileContent)
    (h : fsGet fs p = some c) : fsHas fs p = true := by
  induction fs with
  | nil => simp [fsGet] at h
  | cons e t ih =>
    by_cases he : e.1 = p
    · simp [fsHas, he]
    · simp [fsGet, he] at h
      simp [fsHas, he]
      exact ih h

theorem fsErase_of_not_has (fs : List (FsPath × FileContent)) (p : FsPath)
    (h : fsHas fs p = false) : fsErase fs p = fs := by
  induction fs with
  | nil => rfl
  | cons e t ih =>
    by_cases he : e.1 = p
    · simp [fsHas, he] at h
    · simp [fsHas, he] at h
      simp [fsErase, he, ih h]

theorem fsCount_write_notP (fs : List (FsPath × FileContent)) (p : FsPath) (c : FileContent)
    (pred : FsPath → Bool) (hp : pred p = false) :
    fsCount pred (fsWrite fs p c) = fsCount pred fs := by
  have herase : ∀ t : List (FsPath × FileContent), fsCount pred (fsErase t p) = fsCount pred t := by
    intro t
    induction t with
    | nil => rfl
    | cons e s ih =>
      by_cases he : e.1 = p
      · have : pred e.1 = false := by rw [he]; exact hp
        simp [fsErase, fsCount, he, this, ih, hp]
      · simp [fsErase, fsCount, he, ih]
  simp [fsWrite, fsCount, hp, herase]

theorem fsCount_write_new (fs : List (FsPath × FileContent)) (p : FsPath) (c : FileContent)
    (pred : FsPath → Bool) (hp : pred p = true) (h : fsHas fs p = false) :
    fsCount pred (fsWrite fs p c) = fsCount pred fs + 1 := by
  simp [fsWrite, fsCount, hp, fsErase_of_not_has fs p h]
  omega

/-! ## Per-panel step characterization -/

/-- The detailed description the `t`-th `generateText` call yields for
this panel (meaningful when that call succeeds). -/
def textOkAt (env : Env) (t : Nat) (panel : ComicPanel) (art : String) : String :=
  match env.textResp t (detailPromptFor panel art) with
  | .ok s => s
  | .error _ => ""

/-- The image URL the `f`-th `replicate.run` call yields (meaningful when
that call succeeds and passes the href guard). -/
def urlOkAt (env : Env) (f : Nat) : String :=
  match env.fluxResp f with
  | .ok href =>
    match hrefToUrl href with
    | .ok u => u
    | .error _ => ""
  | .error _ => ""

/-- The body bytes of the `d`-th download (meaningful when it succeeds). -/
def bytesOkAt (env : Env) (d : Nat) : String :=
  match env.downloadResp d with
  | .ok bytes => bytes
  | _ => ""

/-- Does processing one panel succeed, given the call counters `t`
(text), `f` (flux) and `d` (download) at its start? -/
def stepOk (env : Env) (art : String) (panel : ComicPanel) (t f d : Nat) : Bool :=
  (match env.textResp t (detailPromptFor panel art) with | .ok _ => true | .error _ => false) &&
  (match env.textResp (t + 1) (detailPromptFor panel art) with | .ok _ => true | .error _ => false) &&
  (match env.fluxResp f with
   | .ok href => (match hrefToUrl href with | .ok _ => true | .error _ => false)
   | .error _ => false) &&
  (match env.downloadResp d with | .ok _ => true | _ => false)

/-- The world after one fully successful panel iteration. -/
def stepWorld (env : Env) (art dir : String) (panel : ComicPanel) (w : World) : World :=
  { fs := fsWrite
      (fsWrite w.fs (.panelJson dir panel.id)
        (.panelContent (panelDataOf panel art (textOkAt env w.textCalls panel art))))
      (.panelImage (toString panel.id))
      (.imageContent (bytesOkAt env w.downloadCalls)),
    textCalls := w.textCalls + 2,
    fluxCalls := w.fluxCalls + 1,
    downloadCalls := w.downloadCalls + 1,
    trace := w.trace ++
      [.textCall w.textCalls (detailPromptFor panel art),
       .writeFile (.panelJson dir panel.id)
         (.panelContent (panelDataOf panel art (textOkAt env w.textCalls panel art))),
       .textCall (w.textCalls + 1) (detailPromptFor panel art),
       .fluxCall w.fluxCalls (fluxInputFor (textOkAt env (w.textCalls + 1) panel art))
         (toString panel.id),
       .downloadCall w.downloadCalls (urlOkAt env w.fluxCalls) (.panelImage (toString panel.id)),
       .writeFile (.panelImage (toString panel.id)) (.imageContent (bytesOkAt env w.downloadCalls))] }

theorem panelStep_ok (env : Env) (art dir : String) (panel : ComicPanel) (w : World)
    (h : stepOk env art panel w.textCalls w.fluxCalls w.downloadCalls = true) :
    panelStep env art dir panel w = (stepWorld env art dir panel w, .ok (imgRec env.cwd panel)) := by
  unfold stepOk at h
  cases h1 : env.textResp w.textCalls (detailPromptFor panel art) with
  | error e => simp [h1] at h
  | ok d1 =>
  cases h2 : env.textResp (w.textCalls + 1) (detailPromptFor panel art) with
  | error e => simp [h1, h2] at h
  | ok d2 =>
  cases h3 : env.fluxResp w.fluxCalls with
  | error e => simp [h1, h2, h3] at h
  | ok href =>
  cases h4 : hrefToUrl href with
  | error e => simp [h1, h2, h3, h4] at h
  | ok url =>
  cases h5 : env.downloadResp w.downloadCalls with
  | ok bytes =>
    simp [panelStep, createPanelFile, generateDetailedImageDescription, generateImageWithFlux,
          downloadImage, worldWrite, stepWorld, imgRec, textOkAt, urlOkAt, bytesOkAt,
          h1, h2, h3, h4, h5, List.append_assoc]
  | badStatus code => simp [h1, h2, h3, h4, h5] at h
  | writeErr msg => simp [h1, h2, h3, h4, h5] at h
  | requestErr msg => simp [h1, h2, h3, h4, h5] at h

theorem panelStep_ok_inv (env : Env) (art dir : String) (panel : ComicPanel) (w : World)
    (img : GeneratedImage) (w' : World)
    (h : panelStep env art dir panel w = (w', .ok img)) :
    stepOk env art panel w.textCalls w.fluxCalls w.downloadCalls = true := by
  unfold stepOk
  cases h1 : env.textResp w.textCalls (detailPromptFor panel art) with
  | error e =>
    simp [panelStep, createPanelFile, generateDetailedImageDescription, h1] at h
  | ok d1 =>
  cases h2 : env.textResp (w.textCalls + 1) (detailPromptFor panel art) with
  | error e =>
    simp [panelStep, createPanelFile, generateDetailedImageDescription, worldWrite, h1, h2] at h
  | ok d2 =>
  cases h3 : env.fluxResp w.fluxCalls with
  | error e =>
    simp [panelStep, createPanelFile, generateDetailedImageDescription, generateImageWithFlux,
          worldWrite, h1, h2, h3] at h
  | ok href =>
  cases h4 : hrefToUrl href with
  | error e =>
    simp [panelStep, createPanelFile, generateDetailedImageDescription, generateImageWithFlux,
          worldWrite, h1, h2, h3, h4] at h
  | ok url =>
  cases h5 : env.downloadResp w.downloadCalls with
  | ok bytes => simp [h1, h2, h3, h4, h5]
  | badStatus code =>
    simp [panelStep, createPanelFile, generateDetailedImageDescription, generateImageWithFlux,
          downloadImage, worldWrite, h1, h2, h3, h4, h5] at h
  | writeErr msg =>
    simp [panelStep, createPanelFile, generateDetailedImageDescription, generateImageWithFlux,
          downloadImage, worldWrite, worldErase, h1, h2, h3, h4, h5] at h
  | requestErr msg =>
    simp [panelStep, createPanelFile, generateDetailedImageDescription, generateImageWithFlux,
          downloadImage, worldWrite, h1, h2, h3, h4, h5] at h

theorem isImagePath_false_ne (q : FsPath) (s : String) (h : isImagePath q = false) :
    q ≠ FsPath.panelImage s := by
  cases q <;> simp [isImagePath] at h ⊢

theorem fsShape_props (fs : List (FsPath × FileContent)) (dir : String) (id : Int) (s : String)
    (fs' : List (FsPath × FileContent))
    (hshape : fs' = fs ∨ (∃ c1, fs' = fsWrite fs (.panelJson dir id) c1) ∨
      (∃ c1 c2, fs' = fsWrite (fsWrite fs (.panelJson dir id) c1) (.panelImage s) c2) ∨
      (∃ c1, fs' = fsErase
        (fsWrite (fsWrite fs (.panelJson dir id) c1) (.panelImage s) .emptyContent)
        (.panelImage s))) :
    (∀ q, isImagePath q = false → fsHas fs q = true → fsHas fs' q = true) ∧
    (∀ q, fsHas fs' q = true → fsHas fs q = true ∨ q = .panelJson dir id ∨ q = .panelImage s) ∧
    (∀ d, fsGet fs' (.storyJson d) = fsGet fs (.storyJson d)) ∧
    (∀ d, fsHas fs' (.resultJson d) = fsHas fs (.resultJson d)) := by
  rcases hshape with h | ⟨c1, h⟩ | ⟨c1, c2, h⟩ | ⟨c1, h⟩ <;> subst h
  · exact ⟨fun q _ hq => hq, fun q hq => Or.inl hq, fun d => rfl, fun d => rfl⟩
  · refine ⟨fun q _ hq => fsHas_write_mono _ _ _ _ hq, fun q hq => ?_, fun d => ?_, fun d => ?_⟩
    · rcases fsHas_write_sub _ _ _ _ hq with h | h
      · exact Or.inr (Or.inl h)
      · exact Or.inl h
    · exact fsGet_write_other _ _ _ _ (by simp)
    · exact fsHas_write_other _ _ _ _ (by simp)
  · refine ⟨fun q _ hq => fsHas_write_mono _ _ _ _ (fsHas_write_mono _ _ _ _ hq),
      fun q hq => ?_, fun d => ?_, fun d => ?_⟩
    · rcases fsHas_write_sub _ _ _ _ hq with h | h
      · exact Or.inr (Or.inr h)
      · rcases fsHas_write_sub _ _ _ _ h with h' | h'
        · exact Or.inr (Or.inl h')
        · exact Or.inl h'
    · rw [fsGet_write_other _ _ _ _ (by simp), fsGet_write_other _ _ _ _ (by simp)]
    · rw [fsHas_write_other _ _ _ _ (by simp), fsHas_write_other _ _ _ _ (by simp)]
  · refine ⟨fun q hqi hq => ?_, fun q hq => ?_, fun d => ?_, fun d => ?_⟩
    · rw [fsHas_erase_other _ _ _ (isImagePath_false_ne q s hqi)]
      exact fsHas_write_mono _ _ _ _ (fsHas_write_mono _ _ _ _ hq)
    · have h' := fsHas_erase_sub _ _ _ hq
      rcases fsHas_write_sub _ _ _ _ h' with h'' | h''
      · exact Or.inr (Or.inr h'')
      · rcases fsHas_write_sub _ _ _ _ h'' with h3 | h3
        · exact Or.inr (Or.inl h3)
        · exact Or.inl h3
    · rw [fsGet_erase_other _ _ _ (by simp), fsGet_write_other _ _ _ _ (by simp),
          fsGet_write_other _ _ _ _ (by simp)]
    · rw [fsHas_erase_other _ _ _ (by simp), fsHas_write_other _ _ _ _ (by simp),
          fsHas_write_other _ _ _ _ (by simp)]

theorem panelStep_shape (env : Env) (art dir : String) (panel : ComicPanel) (w : World) :
    ((panelStep env art dir panel w).1.fs = w.fs ∨
     (∃ c1, (panelStep env art dir panel w).1.fs = fsWrite w.fs (.panelJson dir panel.id) c1) ∨
     (∃ c1 c2, (panelStep env art dir panel w).1.fs =
       fsWrite (fsWrite w.fs (.panelJson dir panel.id) c1)
         (.panelImage (toString panel.id)) c2) ∨
     (∃ c1, (panelStep env art dir panel w).1.fs = fsErase
       (fsWrite (fsWrite w.fs (.panelJson dir panel.id) c1)
         (.panelImage (toString panel.id)) .emptyContent)
       (.panelImage (toString panel.id)))) ∧
    w.textCalls ≤ (panelStep env art dir panel w).1.textCalls ∧
    (panelStep env art dir panel w).1.textCalls ≤ w.textCalls + 2 ∧
    w.fluxCalls ≤ (panelStep env art dir panel w).1.fluxCalls ∧
    (panelStep env art dir panel w).1.fluxCalls ≤ w.fluxCalls + 1 ∧
    w.downloadCalls ≤ (panelStep env art dir panel w).1.downloadCalls ∧
    (panelStep env art dir panel w).1.downloadCalls ≤ w.downloadCalls + 1 ∧
    (∀ e ∈ w.trace, e ∈ (panelStep env art dir panel w).1.trace) := by
  cases h1 : env.textResp w.textCalls (detailPromptFor panel art) with
  | error e =>
    simp only [panelStep, createPanelFile, generateDetailedImageDescription, h1]
    exact ⟨Or.inl trivial, by omega, by omega, by omega, by omega, by omega, by omega,
      fun ev hev => by simp [List.mem_append, hev]⟩
  | ok d1 =>
  cases h2 : env.textResp (w.textCalls + 1) (detailPromptFor panel art) with
  | error e =>
    simp only [panelStep, createPanelFile, generateDetailedImageDescription, worldWrite, h1, h2]
    exact ⟨Or.inr (Or.inl ⟨_, rfl⟩), by omega, by omega, by omega, by omega, by omega, by omega,
      fun ev hev => by simp [List.mem_append, hev]⟩
  | ok d2 =>
  cases h3 : env.fluxResp w.fluxCalls with
  | error e =>
    simp only [panelStep, createPanelFile, generateDetailedImageDescription,
      generateImageWithFlux, worldWrite, h1, h2, h3]
    exact ⟨Or.inr (Or.inl ⟨_, rfl⟩), by omega, by omega, by omega, by omega, by omega, by omega,
      fun ev hev => by simp [List.mem_append, hev]⟩
  | ok href =>
  cases h4 : hrefToUrl href with
  | error e =>
    simp only [panelStep, createPanelFile, generateDetailedImageDescription,
      generateImageWithFlux, worldWrite, h1, h2, h3, h4]
    exact ⟨Or.inr (Or.inl ⟨_, rfl⟩), by omega, by omega, by omega, by omega, by omega, by omega,
      fun ev hev => by simp [List.mem_append, hev]⟩
  | ok url =>
  cases h5 : env.downloadResp w.downloadCalls with
  | ok bytes =>
    simp only [panelStep, createPanelFile, generateDetailedImageDescription,
      generateImageWithFlux, downloadImage, worldWrite, h1, h2, h3, h4, h5]
    exact ⟨Or.inr (Or.inr (Or.inl ⟨_, _, rfl⟩)), by omega, by omega, by omega, by omega,
      by omega, by omega, fun ev hev => by simp [List.mem_append, hev]⟩
  | badStatus code =>
    simp only [panelStep, createPanelFile, generateDetailedImageDescription,
      generateImageWithFlux, downloadImage, worldWrite, h1, h2, h3, h4, h5]
    exact ⟨Or.inr (Or.inr (Or.inl ⟨_, _, rfl⟩)), by omega, by omega, by omega, by omega,
      by omega, by omega, fun ev hev => by simp [List.mem_append, hev]⟩
  | writeErr msg =>
    simp only [panelStep, createPanelFile, generateDetailedImageDescription,
      generateImageWithFlux, downloadImage, worldWrite, worldErase, h1, h2, h3, h4, h5]
    exact ⟨Or.inr (Or.inr (Or.inr ⟨_, rfl⟩)), by omega, by omega, by omega, by omega,
      by omega, by omega, fun ev hev => by simp [List.mem_append, hev]⟩
  | requestErr msg =>
    simp only [panelStep, createPanelFile, generateDetailedImageDescription,
      generateImageWithFlux, downloadImage, worldWrite, h1, h2, h3, h4, h5]
    exact ⟨Or.inr (Or.inr (Or.inl ⟨_, _, rfl⟩)), by omega, by omega, by omega, by omega,
      by omega, by omega, fun ev hev => by simp [List.mem_append, hev]⟩

/-! ## Success-run characterization -/

/-- The world after successfully processing a list of panels in order. -/
def successWorld (env : Env) (art dir : String) : List ComicPanel → World → World
  | [], w => w
  | p :: rest, w => successWorld env art dir rest (stepWorld env art dir p w)

theorem successWorld_textCalls (env : Env) (art dir : String) (ps : List ComicPanel) (w : World) :
    (successWorld env art dir ps w).textCalls = w.textCalls + 2 * ps.length := by
  induction ps generalizing w with
  | nil => simp [successWorld]
  | cons p rest ih =>
    rw [successWorld, ih]
    simp [stepWorld]
    omega

theorem successWorld_fluxCalls (env : Env) (art dir : String) (ps : List ComicPanel) (w : World) :
    (successWorld env art dir ps w).fluxCalls = w.fluxCalls + ps.length := by
  induction ps generalizing w with
  | nil => simp [successWorld]
  | cons p rest ih =>
    rw [successWorld, ih]
    simp [stepWorld]
    omega

theorem successWorld_downloadCalls (env : Env) (art dir : String) (ps : List ComicPanel)
    (w : World) :
    (successWorld env art dir ps w).downloadCalls = w.downloadCalls + ps.length := by
  induction ps generalizing w with
  | nil => simp [successWorld]
  | cons p rest ih =>
    rw [successWorld, ih]
    simp [stepWorld]
    omega

theorem successWorld_fs_mono (env : Env) (art dir : String) (ps : List ComicPanel) (w : World)
    (q : FsPath) (h : fsHas w.fs q = true) :
    fsHas (successWorld env art dir ps w).fs q = true := by
  induction ps generalizing w with
  | nil => exact h
  | cons p rest ih =>
    rw [successWorld]
    exact ih _ (by simp only [stepWorld]; exact fsHas_write_mono _ _ _ _ (fsHas_write_mono _ _ _ _ h))

theorem successWorld_fs_sub (env : Env) (art dir : String) (ps : List ComicPanel) (w : World)
    (q : FsPath) (h : fsHas (successWorld env art dir ps w).fs q = true) :
    fsHas w.fs q = true ∨
      ∃ p, p ∈ ps ∧ (q = .panelJson dir p.id ∨ q = .panelImage (toString p.id)) := by
  induction ps generalizing w with
  | nil => exact Or.inl h
  | cons p rest ih =>
    rw [successWorld] at h
    rcases ih _ h with h' | ⟨p', hp', hq⟩
    · simp only [stepWorld] at h'
      rcases fsHas_write_sub _ _ _ _ h' with hq | h''
      · exact Or.inr ⟨p, List.mem_cons_self p rest, Or.inr hq⟩
      · rcases fsHas_write_sub _ _ _ _ h'' with hq | h3
        · exact Or.inr ⟨p, List.mem_cons_self p rest, Or.inl hq⟩
        · exact Or.inl h3
    · exact Or.inr ⟨p', List.mem_cons_of_mem p hp', hq⟩

theorem successWorld_has_own (env : Env) (art dir : String) (ps : List ComicPanel) (w : World)
    (p : ComicPanel) (hp : p ∈ ps) :
    fsHas (successWorld env art dir ps w).fs (.panelJson dir p.id) = true ∧
    fsHas (successWorld env art dir ps w).fs (.panelImage (toString p.id)) = true := by
  induction ps generalizing w with
  | nil => cases hp
  | cons hd rest ih =>
    rw [successWorld]
    rcases List.mem_cons.mp hp with heq | hmem
    · subst heq
      refine ⟨successWorld_fs_mono _ _ _ _ _ _ ?_, successWorld_fs_mono _ _ _ _ _ _ ?_⟩
      · simp only [stepWorld]
        rw [fsHas_write_other _ _ _ _ (by simp)]
        exact fsHas_write_self _ _ _
      · simp only [stepWorld]
        exact fsHas_write_self _ _ _
    · exact ih _ hmem

theorem successWorld_get_story (env : Env) (art dir : String) (ps : List ComicPanel) (w : World)
    (d : String) :
    fsGet (successWorld env art dir ps w).fs (.storyJson d) = fsGet w.fs (.storyJson d) := by
  induction ps generalizing w with
  | nil => rfl
  | cons p rest ih =>
    rw [successWorld, ih]
    simp only [stepWorld]
    rw [fsGet_write_other _ _ _ _ (by simp), fsGet_write_other _ _ _ _ (by simp)]

theorem successWorld_has_result (env : Env) (art dir : String) (ps : List ComicPanel) (w : World)
    (d : String) :
    fsHas (successWorld env art dir ps w).fs (.resultJson d) = fsHas w.fs (.resultJson d) := by
  induction ps generalizing w with
  | nil => rfl
  | cons p rest ih =>
    rw [successWorld, ih]
    simp only [stepWorld]
    rw [fsHas_write_other _ _ _ _ (by simp), fsHas_write_other _ _ _ _ (by simp)]

theorem successWorld_trace_mono (env : Env) (art dir : String) (ps : List ComicPanel) (w : World)
    (e : Event) (h : e ∈ w.trace) :
    e ∈ (successWorld env art dir ps w).trace := by
  induction ps generalizing w with
  | nil => exact h
  | cons p rest ih =>
    rw [successWorld]
    exact ih _ (by simp only [stepWorld]; exact List.mem_append_left _ h)

theorem successWorld_events (env : Env) (art dir : String) (ps : List ComicPanel) (w : World)
    (i : Nat) (hi : i < ps.length) :
    (Event.textCall (w.textCalls + 2 * i) (detailPromptFor (ps.get ⟨i, hi⟩) art))
        ∈ (successWorld env art dir ps w).trace ∧
    (Event.writeFile (.panelJson dir (ps.get ⟨i, hi⟩).id)
        (.panelContent (panelDataOf (ps.get ⟨i, hi⟩) art
          (textOkAt env (w.textCalls + 2 * i) (ps.get ⟨i, hi⟩) art))))
        ∈ (successWorld env art dir ps w).trace ∧
    (Event.textCall (w.textCalls + 2 * i + 1) (detailPromptFor (ps.get ⟨i, hi⟩) art))
        ∈ (successWorld env art dir ps w).trace ∧
    (Event.fluxCall (w.fluxCalls + i)
        (fluxInputFor (textOkAt env (w.textCalls + 2 * i + 1) (ps.get ⟨i, hi⟩) art))
        (toString (ps.get ⟨i, hi⟩).id))
        ∈ (successWorld env art dir ps w).trace := by
  induction ps generalizing w i with
  | nil => cases hi
  | cons p rest ih =>
    cases i with
    | zero =>
      simp only [List.get, Nat.mul_zero, Nat.add_zero, successWorld]
      refine ⟨?_, ?_, ?_, ?_⟩ <;>
        exact successWorld_trace_mono _ _ _ _ _ _
          (by simp only [stepWorld]; simp [List.mem_append])
    | succ j =>
      have hj : j < rest.length := Nat.lt_of_succ_lt_succ hi
      have harith1 : w.textCalls + 2 * (j + 1) = (stepWorld env art dir p w).textCalls + 2 * j := by
        simp only [stepWorld]; ring
      have harith2 : w.fluxCalls + (j + 1) = (stepWorld env art dir p w).fluxCalls + j := by
        simp only [stepWorld]; ring
      have hget : (p :: rest).get ⟨j + 1, hi⟩ = rest.get ⟨j, hj⟩ := rfl
      rw [successWorld, hget, harith1, harith2]
      exact ih (stepWorld env art dir p w) j hj

theorem successWorld_countPanel (env : Env) (art dir : String) (ps : List ComicPanel) (w : World)
    (hnodup : (ps.map fun p => p.id).Nodup)
    (hJ : ∀ p ∈ ps, fsHas w.fs (.panelJson dir p.id) = false) :
    countPanelJson (successWorld env art dir ps w).fs dir = countPanelJson w.fs dir + ps.length := by
  induction ps generalizing w with
  | nil => simp [successWorld]
  | cons p rest ih =>
    simp only [List.map_cons, List.nodup_cons] at hnodup
    have hstep : countPanelJson (stepWorld env art dir p w).fs dir = countPanelJson w.fs dir + 1 := by
      simp only [stepWorld, countPanelJson]
      rw [fsCount_write_notP _ _ _ _ (by simp [isPanelJsonOf]),
          fsCount_write_new _ _ _ _ (by simp [isPanelJsonOf]) (hJ p (List.mem_cons_self p rest))]
    have hJ' : ∀ p' ∈ rest, fsHas (stepWorld env art dir p w).fs (.panelJson dir p'.id) = false := by
      intro p' hp'
      have hne : p'.id ≠ p.id := by
        intro hcontra
        exact hnodup.1 (by rw [← hcontra]; exact List.mem_map_of_mem _ hp')
      simp only [stepWorld]
      rw [fsHas_write_other _ _ _ _ (by simp), fsHas_write_other _ _ _ _ (by simp [hne])]
      exact hJ p' (List.mem_cons_of_mem p hp')
    rw [successWorld, ih _ hnodup.2 hJ', hstep]
    simp
    omega

theorem successWorld_countImages (env : Env) (art dir : String) (ps : List ComicPanel) (w : World)
    (hnodup : (ps.map fun p => toString p.id).Nodup)
    (hI : ∀ p ∈ ps, fsHas w.fs (.panelImage (toString p.id)) = false) :
    countImages (successWorld env art dir ps w).fs = countImages w.fs + ps.length := by
  induction ps generalizing w with
  | nil => simp [successWorld]
  | cons p rest ih =>
    simp only [List.map_cons, List.nodup_cons] at hnodup
    have hstep : countImages (stepWorld env art dir p w).fs = countImages w.fs + 1 := by
      simp only [stepWorld, countImages]
      rw [fsCount_write_new _ _ _ _ (by simp [isImagePath])
            (by rw [fsHas_write_other _ _ _ _ (by simp)]
                exact hI p (List.mem_cons_self p rest)),
          fsCount_write_notP _ _ _ _ (by simp [isImagePath])]
    have hI' : ∀ p' ∈ rest, fsHas (stepWorld env art dir p w).fs
        (.panelImage (toString p'.id)) = false := by
      intro p' hp'
      have hne : toString p'.id ≠ toString p.id := by
        intro hcontra
        exact hnodup.1 (by rw [← hcontra]; exact List.mem_map_of_mem _ hp')
      simp only [stepWorld]
      rw [fsHas_write_other _ _ _ _ (by simp [hne]), fsHas_write_other _ _ _ _ (by simp)]
      exact hI p' (List.mem_cons_of_mem p hp')
    rw [successWorld, ih _ hnodup.2 hI', hstep]
    simp
    omega

/-! ## Loop-level lemmas -/

theorem pp_ok_inv (env : Env) (art dir : String) (ps : List ComicPanel) (w : World)
    (acc : List GeneratedImage) (w' : World) (imgs : List GeneratedImage)
    (h : processPanels env art dir ps w acc = (w', .ok imgs)) :
    w' = successWorld env art dir ps w ∧
    imgs = acc ++ ps.map (imgRec env.cwd) ∧
    ∀ i (hi : i < ps.length),
      stepOk env art (ps.get ⟨i, hi⟩) (w.textCalls + 2 * i) (w.fluxCalls + i)
        (w.downloadCalls + i) = true := by
  induction ps generalizing w acc with
  | nil =>
    simp only [processPanels, Prod.mk.injEq] at h
    obtain ⟨hw, himgs⟩ := h
    refine ⟨hw.symm, ?_, fun i hi => absurd hi (by simp)⟩
    simp [← Except.ok.injEq imgs acc]
    exact (Except.ok.injEq _ _ ▸ himgs.symm)
  | cons p rest ih =>
    cases hstep : panelStep env art dir p w with
    | mk w1 r =>
      cases r with
      | error e => simp [processPanels, hstep] at h
      | ok img =>
        have hok0 : stepOk env art p w.textCalls w.fluxCalls w.downloadCalls = true :=
          panelStep_ok_inv env art dir p w img w1 hstep
        have hchar := panelStep_ok env art dir p w hok0
        rw [hstep] at hchar
        obtain ⟨hw1, himg⟩ : w1 = stepWorld env art dir p w ∧ img = imgRec env.cwd p := by
          have h1 := congrArg Prod.fst hchar
          have h2 := congrArg Prod.snd hchar
          simp at h1 h2
          exact ⟨h1, h2⟩
        subst hw1; subst himg
        simp only [processPanels, hstep] at h
        obtain ⟨hw', himgs, hsteps⟩ := ih _ _ h
        refine ⟨hw', ?_, ?_⟩
        · rw [himgs]
          simp
        · intro i hi
          cases i with
          | zero => simpa using hok0
          | succ j =>
            have hj : j < rest.length := Nat.lt_of_succ_lt_succ hi
            have := hsteps j hj
            simp only [stepWorld] at this
            have e1 : w.textCalls + 2 + 2 * j = w.textCalls + 2 * (j + 1) := by ring
            have e2 : w.fluxCalls + 1 + j = w.fluxCalls + (j + 1) := by ring
            have e3 : w.downloadCalls + 1 + j = w.downloadCalls + (j + 1) := by ring
            rw [e1, e2, e3] at this
            exact this

theorem pp_shape (env : Env) (art dir : String) (ps : List ComicPanel) (w : World)
    (acc : List GeneratedImage) :
    (∀ q, isImagePath q = false → fsHas w.fs q = true →
      fsHas (processPanels env art dir ps w acc).1.fs q = true) ∧
    (∀ q, fsHas (processPanels env art dir ps w acc).1.fs q = true →
      fsHas w.fs q = true ∨
        ∃ p, p ∈ ps ∧ (q = .panelJson dir p.id ∨ q = .panelImage (toString p.id))) ∧
    (∀ d, fsGet (processPanels env art dir ps w acc).1.fs (.storyJson d) =
      fsGet w.fs (.storyJson d)) ∧
    (∀ d, fsHas (processPanels env art dir ps w acc).1.fs (.resultJson d) =
      fsHas w.fs (.resultJson d)) ∧
    (∀ e ∈ w.trace, e ∈ (processPanels env art dir ps w acc).1.trace) := by
  induction ps generalizing w acc with
  | nil =>
    exact ⟨fun q _ hq => hq, fun q hq => Or.inl hq, fun d => rfl, fun d => rfl, fun e he => he⟩
  | cons p rest ih =>
    obtain ⟨hshape, _, ht1, ht2, _, _, _, htr⟩ := panelStep_shape env art dir p w
    obtain ⟨hpres, hsub, hstory, hresult⟩ :=
      fsShape_props w.fs dir p.id (toString p.id) (panelStep env art dir p w).1.fs hshape
    cases hstep : panelStep env art dir p w with
    | mk w1 r =>
      rw [hstep] at hpres hsub hstory hresult htr
      cases r with
      | error e =>
        simp only [processPanels, hstep]
        exact ⟨hpres, fun q hq => (hsub q hq).imp id
            (fun h => ⟨p, List.mem_cons_self p rest, h⟩),
          hstory, hresult, htr⟩
      | ok img =>
        simp only [processPanels, hstep]
        obtain ⟨ipres, isub, istory, iresult, itr⟩ := ih w1 (acc ++ [img])
        refine ⟨fun q hqi hq => ipres q hqi (hpres q hqi hq), fun q hq => ?_,
          fun d => (istory d).trans (hstory d), fun d => (iresult d).trans (hresult d),
          fun e he => itr e (htr e he)⟩
        rcases isub q hq with h1 | ⟨p', hp', hq'⟩
        · rcases hsub q h1 with h2 | h2
          · exact Or.inl h2
          · exact Or.inr ⟨p, List.mem_cons_self p rest, h2⟩
        · exact Or.inr ⟨p', List.mem_cons_of_mem p hp', hq'⟩

theorem pp_prefix (env : Env) (art dir : String) (ps : List ComicPanel) (k : Nat) (w : World)
    (acc : List GeneratedImage) (hk : k ≤ ps.length)
    (hok : ∀ i (hi : i < k),
      stepOk env art (ps.get ⟨i, Nat.lt_of_lt_of_le hi hk⟩) (w.textCalls + 2 * i)
        (w.fluxCalls + i) (w.downloadCalls + i) = true) :
    processPanels env art dir ps w acc =
      processPanels env art dir (ps.drop k) (successWorld env art dir (ps.take k) w)
        (acc ++ (ps.take k).map (imgRec env.cwd)) := by
  induction ps generalizing k w acc with
  | nil =>
    have : k = 0 := Nat.le_zero.mp hk
    subst this
    simp [successWorld]
  | cons p rest ih =>
    cases k with
    | zero => simp [successWorld]
    | succ j =>
      have hj : j ≤ rest.length := Nat.le_of_succ_le_succ hk
      have hok0 : stepOk env art p w.textCalls w.fluxCalls w.downloadCalls = true := by
        simpa using hok 0 (Nat.succ_pos j)
      have hstep := panelStep_ok env art dir p w hok0
      simp only [processPanels, hstep, List.drop_succ_cons, List.take_succ_cons,
        List.map_cons, successWorld]
      rw [ih j (stepWorld env art dir p w) (acc ++ [imgRec env.cwd p]) hj ?_]
      · simp
      · intro i hi
        have := hok (i + 1) (Nat.succ_lt_succ hi)
        simp only [stepWorld]
        have e1 : w.textCalls + 2 + 2 * i = w.textCalls + 2 * (i + 1) := by ring
        have e2 : w.fluxCalls + 1 + i = w.fluxCalls + (i + 1) := by ring
        have e3 : w.downloadCalls + 1 + i = w.downloadCalls + (i + 1) := by ring
        rw [e1, e2, e3]
        exact this

/-! ## Top-level run characterization -/

theorem initWorld_counters (env : Env) (story : ComicStory) :
    (initWorld env story).textCalls = 0 ∧ (initWorld env story).fluxCalls = 0 ∧
    (initWorld env story).downloadCalls = 0 := by
  simp [initWorld, worldWrite, emptyWorld]

theorem initWorld_fs (env : Env) (story : ComicStory) :
    (initWorld env story).fs =
      [(FsPath.storyJson (comicDirName env), FileContent.storyContent story)] := by
  simp [initWorld, worldWrite, emptyWorld, fsWrite, fsErase]

theorem generateComic_ok_inv (env : Env) (req : ComicGenerationRequest) (story : ComicStory)
    (res : ComicGenerationResult)
    (hstory : env.storyResp (storyUserPrompt req) = .ok story)
    (h : (generateComic env req).2 = .ok res) :
    res = { story := story,
            generatedImages := story.panels.map (imgRec env.cwd),
            metadata := { generatedAt := env.isoGen, totalPanels := story.panels.length,
                          processingTimeMs := env.endMs - env.startMs } } ∧
    (generateComic env req).1 =
      worldWrite
        (successWorld env story.artStyle (comicDirName env) story.panels (initWorld env story))
        (.resultJson (comicDirName env)) (.resultContent res) ∧
    ∀ i (hi : i < story.panels.length),
      stepOk env story.artStyle (story.panels.get ⟨i, hi⟩) (2 * i) i i = true := by
  cases hpp : processPanels env story.artStyle (comicDirName env) story.panels
      (initWorld env story) [] with
  | mk wp r =>
    cases r with
    | error e =>
      simp only [generateComic, hstory, hpp] at h
      cases h
    | ok images =>
      obtain ⟨hwp, himgs, hsteps⟩ := pp_ok_inv env story.artStyle (comicDirName env)
        story.panels (initWorld env story) [] wp images hpp
      simp only [generateComic, hstory, hpp] at h ⊢
      obtain ⟨hc0, hc1, hc2⟩ := initWorld_counters env story
      injection h with h'
      subst h'
      subst himgs
      refine ⟨by simp, ?_, ?_⟩
      · simp [hwp]
      · intro i hi
        have := hsteps i hi
        rw [hc0, hc1, hc2] at this
        simpa using this

theorem generateComic_fail_at (env : Env) (req : ComicGenerationRequest) (story : ComicStory)
    (k : Nat)
    (hstory : env.storyResp (storyUserPrompt req) = .ok story)
    (hk : k < story.panels.length)
    (hok : ∀ i (hi : i < k),
      stepOk env story.artStyle (story.panels.get ⟨i, Nat.lt_trans hi hk⟩) (2 * i) i i = true)
    (hfail : stepOk env story.artStyle (story.panels.get ⟨k, hk⟩) (2 * k) k k = false) :
    ∃ e, (panelStep env story.artStyle (comicDirName env) (story.panels.get ⟨k, hk⟩)
        (successWorld env story.artStyle (comicDirName env) (story.panels.take k)
          (initWorld env story))).2 = .error e ∧
      generateComic env req =
        ((panelStep env story.artStyle (comicDirName env) (story.panels.get ⟨k, hk⟩)
          (successWorld env story.artStyle (comicDirName env) (story.panels.take k)
            (initWorld env story))).1, .error e) := by
  obtain ⟨hc0, hc1, hc2⟩ := initWorld_counters env story
  have hpre := pp_prefix env story.artStyle (comicDirName env) story.panels k
    (initWorld env story) [] (Nat.le_of_lt hk) ?_
  · have hdrop : story.panels.drop k =
        story.panels.get ⟨k, hk⟩ :: story.panels.drop (k + 1) :=
      List.drop_eq_get_cons hk
    have hwk : (successWorld env story.artStyle (comicDirName env) (story.panels.take k)
        (initWorld env story)).textCalls = 2 * k := by
      rw [successWorld_textCalls, hc0]
      simp [List.length_take, Nat.min_eq_left (Nat.le_of_lt hk)]
    have hwkf : (successWorld env story.artStyle (comicDirName env) (story.panels.take k)
        (initWorld env story)).fluxCalls = k := by
      rw [successWorld_fluxCalls, hc1]
      simp [List.length_take, Nat.min_eq_left (Nat.le_of_lt hk)]
    have hwkd : (successWorld env story.artStyle (comicDirName env) (story.panels.take k)
        (initWorld env story)).downloadCalls = k := by
      rw [successWorld_downloadCalls, hc2]
      simp [List.length_take, Nat.min_eq_left (Nat.le_of_lt hk)]
    cases hstep : panelStep env story.artStyle (comicDirName env) (story.panels.get ⟨k, hk⟩)
        (successWorld env story.artStyle (comicDirName env) (story.panels.take k)
          (initWorld env story)) with
    | mk w1 r =>
      cases r with
      | ok img =>
        have := panelStep_ok_inv env story.artStyle (comicDirName env) _ _ img w1 hstep
        rw [hwk, hwkf, hwkd] at this
        rw [this] at hfail
        cases hfail
      | error e =>
        refine ⟨e, rfl, ?_⟩
        simp only [generateComic, hstory, hpre, hdrop, processPanels, hstep]
  · intro i hi
    have := hok i hi
    rw [hc0, hc1, hc2]
    simpa using this

/-! ## Specialized failure modes of a panel step -/

theorem hrefToUrl_not_string (href : ReplicateHref)
    (h : (∃ b, href = .nonStringVal b) ∨ href = .missingVal) :
    hrefToUrl href = .error "Invalid output from Replicate API" := by
  rcases h with ⟨b, rfl⟩ | rfl <;> rfl

theorem panelStep_href_invalid (env : Env) (art dir : String) (panel : ComicPanel) (w : World)
    (d1 d2 : String) (href : ReplicateHref)
    (h1 : env.textResp w.textCalls (detailPromptFor panel art) = .ok d1)
    (h2 : env.textResp (w.textCalls + 1) (detailPromptFor panel art) = .ok d2)
    (h3 : env.fluxResp w.fluxCalls = .ok href)
    (h4 : hrefToUrl href = .error "Invalid output from Replicate API") :
    (panelStep env art dir panel w).1.fs =
      fsWrite w.fs (.panelJson dir panel.id) (.panelContent (panelDataOf panel art d1)) ∧
    (panelStep env art dir panel w).2 = .error "Invalid output from Replicate API" := by
  simp [panelStep, createPanelFile, generateDetailedImageDescription, generateImageWithFlux,
        worldWrite, h1, h2, h3, h4]

theorem panelStep_badStatus (env : Env) (art dir : String) (panel : ComicPanel) (w : World)
    (d1 d2 : String) (href : ReplicateHref) (url : String) (code : Nat)
    (h1 : env.textResp w.textCalls (detailPromptFor panel art) = .ok d1)
    (h2 : env.textResp (w.textCalls + 1) (detailPromptFor panel art) = .ok d2)
    (h3 : env.fluxResp w.fluxCalls = .ok href)
    (h4 : hrefToUrl href = .ok url)
    (h5 : env.downloadResp w.downloadCalls = .badStatus code) :
    (panelStep env art dir panel w).1.fs =
      fsWrite (fsWrite w.fs (.panelJson dir panel.id)
          (.panelContent (panelDataOf panel art d1)))
        (.panelImage (toString panel.id)) .emptyContent ∧
    (panelStep env art dir panel w).2 =
      .error ("Failed to download image: " ++ toString code) := by
  simp [panelStep, createPanelFile, generateDetailedImageDescription, generateImageWithFlux,
        downloadImage, worldWrite, h1, h2, h3, h4, h5]

theorem panelStep_writeErr (env : Env) (art dir : String) (panel : ComicPanel) (w : World)
    (d1 d2 : String) (href : ReplicateHref) (url : String) (msg : String)
    (h1 : env.textResp w.textCalls (detailPromptFor panel art) = .ok d1)
    (h2 : env.textResp (w.textCalls + 1) (detailPromptFor panel art) = .ok d2)
    (h3 : env.fluxResp w.fluxCalls = .ok href)
    (h4 : hrefToUrl href = .ok url)
    (h5 : env.downloadResp w.downloadCalls = .writeErr msg) :
    (panelStep env art dir panel w).1.fs =
      fsErase (fsWrite (fsWrite w.fs (.panelJson dir panel.id)
          (.panelContent (panelDataOf panel art d1)))
        (.panelImage (toString panel.id)) .emptyContent) (.panelImage (toString panel.id)) ∧
    (panelStep env art dir panel w).2 = .error msg := by
  simp [panelStep, createPanelFile, generateDetailedImageDescription, generateImageWithFlux,
        downloadImage, worldWrite, worldErase, h1, h2, h3, h4, h5]

/-! ## Path-string lemmas -/

theorem stripPre_append (x y : List Char) : stripPre x (x ++ y) = some y := by
  induction x with
  | nil => rfl
  | cons c cs ih => simp [stripPre, ih]

theorem relativeTo_append (cwd rest : String) :
    relativeTo cwd (cwd ++ "/" ++ rest) = rest := by
  unfold relativeTo
  have hdata : (cwd ++ "/" ++ rest).data = (cwd.data ++ ['/']) ++ rest.data := rfl
  rw [hdata, stripPre_append]

theorem relativeTo_image (cwd f : String) :
    relativeTo cwd (imagesDirOf cwd ++ "/" ++ f) = ".workspace/images/" ++ f := by
  have hgroup : imagesDirOf cwd ++ "/" ++ f =
      cwd ++ "/" ++ (".workspace/images/" ++ f) := by
    simp [imagesDirOf, workspaceDirOf, String.append_assoc]
    rw [← String.append_assoc ("/" : String) ".workspace/images/" f]
    have h2 : ("/" : String) ++ ".workspace/images/" = "/.workspace/images/" := by decide
    rw [h2]
  rw [hgroup, relativeTo_append]

/-! ## Concrete fixtures for witnesses and counterexamples -/

/-- A minimal panel with the given id. -/
def samplePanel (i : Int) : ComicPanel :=
  { id := i, description := "desc", characters := ["Hero"], setting := "city",
    dialogue := none, visualStyle := "wide shot", imagePrompt := "a hero" }

/-- A minimal schema-conforming story whose panels carry the given ids.
The schema constrains panel ids only to be numbers, so any id list is a
legal model response. -/
def sampleStory (ids : List Int) : ComicStory :=
  { title := "T", genre := "adventure", theme := "hope",
    characters := [{ name := "Hero", description := "d", visualDescription := "v" }],
    panels := ids.map samplePanel, artStyle := "manga style" }

/-- An environment in which every external call succeeds. -/
def okEnv (story : ComicStory) : Env :=
  { cwd := "/home/user", storyResp := fun _ => .ok story,
    textResp := fun n _ => .ok ("detail-" ++ toString n),
    fluxResp := fun _ => .ok (.strVal "https://img.example/out.jpg"),
    downloadResp := fun _ => .ok "jpegbytes",
    isoDir := "2025-06-01T12:30:45.123Z", isoGen := "2025-06-01T12:31:00.000Z",
    startMs := 1000, endMs := 5000 }

/-- The request of the spec scenario. -/
def sampleReq : ComicGenerationRequest :=
  { prompt := "A superhero saves a cat from a tree", panelCount := some 4,
    artStyle := none, genre := none }

/-! ## C3 -/

/-- C3, amended: submitting a string at the options screen yields the
default 4 on empty/whitespace input and clamps parseable numbers into
[1,12]; but an input on which `parseInt` yields `NaN` (e.g. non-numeric
text) makes `panelCount` `NaN` (modelled `none`), which is NOT an integer
in [1,12].  Whenever the result is a number, it lies in [1,12]. -/
theorem C3_panelCount_clamp (value : String) (s : AppState) :
    (jsTrim value = "" → (buildRequest (handleOptionsSubmit value s)).panelCount = some 4) ∧
    (∀ n : Int, jsTrim value ≠ "" → jsParseInt (jsTrim value) = some n →
      (buildRequest (handleOptionsSubmit value s)).panelCount = some (max 1 (min 12 n))) ∧
    (jsTrim value ≠ "" → jsParseInt (jsTrim value) = none →
      (buildRequest (handleOptionsSubmit value s)).panelCount = none) ∧
    (∀ m : Int, (buildRequest (handleOptionsSubmit value s)).panelCount = some m →
      1 ≤ m ∧ m ≤ 12) := by
  refine ⟨?_, ?_, ?_, ?_⟩
  · intro h
    simp [buildRequest, handleOptionsSubmit, h, jsMin, jsMax]
  · intro n h hn
    simp [buildRequest, handleOptionsSubmit, h, hn, jsMin, jsMax]
  · intro h hn
    simp [buildRequest, handleOptionsSubmit, h, hn, jsMin, jsMax]
  · intro m hm
    by_cases h : jsTrim value = ""
    · simp [buildRequest, handleOptionsSubmit, h, jsMin, jsMax] at hm
      omega
    · cases hn : jsParseInt (jsTrim value) with
      | none => simp [buildRequest, handleOptionsSubmit, h, hn, jsMin, jsMax] at hm
      | some n =>
        simp [buildRequest, handleOptionsSubmit, h, hn, jsMin, jsMax] at hm
        omega

/-- C3 witness: input "20" is clamped to 12. -/
theorem C3_panelCount_clamp_witness :
    jsTrim "20" ≠ "" ∧ jsParseInt (jsTrim "20") = some 20 ∧
    (buildRequest (handleOptionsSubmit "20" initialState)).panelCount =
      some (max 1 (min 12 20)) :=
  ⟨by decide, by decide,
   (C3_panelCount_clamp "20" initialState).2.1 20 (by decide) (by decide)⟩

/-- C3 counterexample: the non-numeric input "abc" is neither defaulted
nor clamped — `parseInt` gives `NaN` and `Math.max(1, Math.min(12, NaN))`
is `NaN`, so the request's `panelCount` is not an integer in [1,12]. -/
theorem C3_nan_counterexample :
    (buildRequest (handleOptionsSubmit "abc" initialState)).panelCount = none := by
  decide

/-! ## C8 -/

/-- C8: submitting text on the done screen replaces the whole state:
back to the prompt screen, prompt cleared, panelCount restored to 4,
result and error gone; the new state is independent of the finished
request's state. -/
theorem C8_done_reset (value : String) (s : AppState) :
    (handleDoneSubmit value s).step = .promptStep ∧
    (handleDoneSubmit value s).prompt = "" ∧
    (handleDoneSubmit value s).panelCount = some 4 ∧
    (handleDoneSubmit value s).result = none ∧
    (handleDoneSubmit value s).error = none ∧
    ∀ s' : AppState, handleDoneSubmit value s' = handleDoneSubmit value s :=
  ⟨rfl, rfl, rfl, rfl, rfl, fun _ => rfl⟩

/-! ## C6 -/

/-- C6, amended: the pipeline performs no validation of panel ids — the
story is persisted to `story.json` exactly as the model returned it, so
panel ids in the persisted story are unique and equal to their 1-based
position if and only if the model produced them that way. -/
theorem C6_story_persisted_verbatim (env : Env) (req : ComicGenerationRequest)
    (story : ComicStory)
    (hstory : env.storyResp (storyUserPrompt req) = .ok story) :
    fsGet (generateComic env req).1.fs (.storyJson (comicDirName env)) =
      some (.storyContent story) := by
  have hinit : fsGet (initWorld env story).fs (.storyJson (comicDirName env)) =
      some (.storyContent story) := by
    rw [initWorld_fs]
    simp [fsGet]
  obtain ⟨_, _, hstoryget, _, _⟩ := pp_shape env story.artStyle (comicDirName env)
    story.panels (initWorld env story) []
  cases hpp : processPanels env story.artStyle (comicDirName env) story.panels
      (initWorld env story) [] with
  | mk wp r =>
    rw [hpp] at hstoryget
    cases r with
    | error e =>
      simp only [generateComic, hstory, hpp]
      rw [hstoryget, hinit]
    | ok images =>
      simp only [generateComic, hstory, hpp, worldWrite]
      rw [fsGet_write_other _ _ _ _ (by simp), hstoryget, hinit]

/-- C6 witness: a story is persisted verbatim in a concrete all-ok run. -/
theorem C6_story_persisted_verbatim_witness :
    (okEnv (sampleStory [1, 2])).storyResp (storyUserPrompt sampleReq) =
      .ok (sampleStory [1, 2]) ∧
    fsGet (generateComic (okEnv (sampleStory [1, 2])) sampleReq).1.fs
        (.storyJson (comicDirName (okEnv (sampleStory [1, 2])))) =
      some (.storyContent (sampleStory [1, 2])) :=
  ⟨rfl, C6_story_persisted_verbatim (okEnv (sampleStory [1, 2])) sampleReq
    (sampleStory [1, 2]) rfl⟩

/-- C6 counterexample: a schema-conforming model response whose two
panels both carry id 2 is persisted unchanged to `story.json`; its panel
ids are neither unique nor equal to their 1-based positions. -/
theorem C6_duplicate_ids_counterexample :
    fsGet (generateComic (okEnv (sampleStory [2, 2])) sampleReq).1.fs
        (.storyJson (comicDirName (okEnv (sampleStory [2, 2])))) =
      some (.storyContent (sampleStory [2, 2])) ∧
    ¬ ((sampleStory [2, 2]).panels.map (fun p => p.id)).Nodup ∧
    ¬ (∀ i (hi : i < (sampleStory [2, 2]).panels.length),
        ((sampleStory [2, 2]).panels.get ⟨i, hi⟩).id = i + 1) := by
  refine ⟨by decide, by decide, ?_⟩
  intro hall
  have := hall 0 (by decide)
  simp [sampleStory, samplePanel] at this

/-! ## C1 -/

/-- C1, amended: on a successful run whose story has N panels (N in
[1,12]), `totalPanels` equals the panel-list length and `generatedImages`
has exactly `totalPanels` entries; and PROVIDED the panel ids are
pairwise distinct (equivalently, their decimal renderings are), exactly N
panel JSON files and N image files exist.  With duplicate ids — which the
schema does not rule out — writes collide and fewer files result. -/
theorem C1_success_file_counts (env : Env) (req : ComicGenerationRequest) (story : ComicStory)
    (N : Nat)
    (hstory : env.storyResp (storyUserPrompt req) = .ok story)
    (hN : story.panels.length = N) (hlo : 1 ≤ N) (hhi : N ≤ 12)
    (hnodup : (story.panels.map fun p => toString p.id).Nodup)
    (hok : ((generateComic env req).2).isOk = true) :
    ((generateComic env req).2).map (fun r => r.metadata.totalPanels) = .ok N ∧
    ((generateComic env req).2).map (fun r => r.generatedImages.length) = .ok N ∧
    countPanelJson (generateComic env req).1.fs (comicDirName env) = N ∧
    countImages (generateComic env req).1.fs = N := by
  cases hr : (generateComic env req).2 with
  | error e => rw [hr] at hok; cases hok
  | ok res =>
    obtain ⟨hres, hw, _⟩ := generateComic_ok_inv env req story res hstory hr
    have hnodupI : (story.panels.map fun p => p.id).Nodup := by
      refine List.Nodup.of_map toString ?_
      rw [List.map_map]
      simpa [Function.comp] using hnodup
    have hJ : ∀ p ∈ story.panels,
        fsHas (initWorld env story).fs (.panelJson (comicDirName env) p.id) = false := by
      intro p _
      rw [initWorld_fs]
      simp [fsHas]
    have hI : ∀ p ∈ story.panels,
        fsHas (initWorld env story).fs (.panelImage (toString p.id)) = false := by
      intro p _
      rw [initWorld_fs]
      simp [fsHas]
    have hinitJ : countPanelJson (initWorld env story).fs (comicDirName env) = 0 := by
      rw [initWorld_fs]
      simp [countPanelJson, fsCount, isPanelJsonOf]
    have hinitI : countImages (initWorld env story).fs = 0 := by
      rw [initWorld_fs]
      simp [countImages, fsCount, isImagePath]
    refine ⟨?_, ?_, ?_, ?_⟩
    · simp [hr, hres, hN, Except.map]
    · simp [hr, hres, hN, Except.map]
    · rw [hw]
      simp only [worldWrite, countPanelJson]
      rw [fsCount_write_notP _ _ _ _ (by simp [isPanelJsonOf])]
      have := successWorld_countPanel env story.artStyle (comicDirName env) story.panels
        (initWorld env story) hnodupI hJ
      simp only [countPanelJson] at this hinitJ
      rw [this, hinitJ, hN]
      omega
    · rw [hw]
      simp only [worldWrite, countImages]
      rw [fsCount_write_notP _ _ _ _ (by simp [isImagePath])]
      have := successWorld_countImages env story.artStyle (comicDirName env) story.panels
        (initWorld env story) hnodup hI
      simp only [countImages] at this hinitI
      rw [this, hinitI, hN]
      omega

/-- C1 witness: an all-ok two-panel run with distinct ids yields
totalPanels 2, two generated images, two panel files and two images. -/
theorem C1_success_file_counts_witness :
    ((sampleStory [1, 2]).panels.map fun p => toString p.id).Nodup ∧
    ((generateComic (okEnv (sampleStory [1, 2])) sampleReq).2).isOk = true ∧
    countPanelJson (generateComic (okEnv (sampleStory [1, 2])) sampleReq).1.fs
      (comicDirName (okEnv (sampleStory [1, 2]))) = 2 :=
  ⟨by decide, by decide,
   (C1_success_file_counts (okEnv (sampleStory [1, 2])) sampleReq (sampleStory [1, 2]) 2
     rfl (by decide) (by decide) (by decide) (by decide) (by decide)).2.2.1⟩

/-- C1 counterexample: a successful run whose story has two panels that
share id 1 reports totalPanels = 2 yet writes only ONE panel JSON file
and ONE image file — the second panel's writes overwrite the first's. -/
theorem C1_duplicate_ids_counterexample :
    ((generateComic (okEnv (sampleStory [1, 1])) sampleReq).2).map
      (fun r => r.metadata.totalPanels) = .ok 2 ∧
    countPanelJson (generateComic (okEnv (sampleStory [1, 1])) sampleReq).1.fs
      (comicDirName (okEnv (sampleStory [1, 1]))) = 1 ∧
    countImages (generateComic (okEnv (sampleStory [1, 1])) sampleReq).1.fs = 1 := by
  exact ⟨by decide, by decide, by decide⟩

/-! ## C5 -/

/-- C5: on a successful run each panel triggers exactly two independent
panel-detailing calls — call number 2i (whose text is persisted inside
`panel-<id>.json`) and call number 2i+1 (whose text becomes the flux
image prompt) — with 2N text calls in total; the two calls are separate
invocations of the model, so their texts may differ, and the persisted
text is never reused as the image prompt. -/
theorem C5_detail_called_twice (env : Env) (req : ComicGenerationRequest) (story : ComicStory)
    (hstory : env.storyResp (storyUserPrompt req) = .ok story)
    (hok : ((generateComic env req).2).isOk = true) :
    (generateComic env req).1.textCalls = 2 * story.panels.length ∧
    ∀ i (hi : i < story.panels.length),
      Event.textCall (2 * i) (detailPromptFor (story.panels.get ⟨i, hi⟩) story.artStyle)
        ∈ (generateComic env req).1.trace ∧
      Event.writeFile (.panelJson (comicDirName env) (story.panels.get ⟨i, hi⟩).id)
          (.panelContent (panelDataOf (story.panels.get ⟨i, hi⟩) story.artStyle
            (textOkAt env (2 * i) (story.panels.get ⟨i, hi⟩) story.artStyle)))
        ∈ (generateComic env req).1.trace ∧
      Event.textCall (2 * i + 1) (detailPromptFor (story.panels.get ⟨i, hi⟩) story.artStyle)
        ∈ (generateComic env req).1.trace ∧
      Event.fluxCall i
          (fluxInputFor (textOkAt env (2 * i + 1) (story.panels.get ⟨i, hi⟩) story.artStyle))
          (toString (story.panels.get ⟨i, hi⟩).id)
        ∈ (generateComic env req).1.trace := by
  cases hr : (generateComic env req).2 with
  | error e => rw [hr] at hok; cases hok
  | ok res =>
    obtain ⟨_, hw, _⟩ := generateComic_ok_inv env req story res hstory hr
    obtain ⟨hc0, hc1, hc2⟩ := initWorld_counters env story
    constructor
    · rw [hw]
      simp only [worldWrite]
      rw [successWorld_textCalls, hc0]
      omega
    · intro i hi
      have hev := successWorld_events env story.artStyle (comicDirName env) story.panels
        (initWorld env story) i hi
      rw [hc0, hc1] at hev
      simp only [Nat.zero_add] at hev
      rw [hw]
      simp only [worldWrite]
      exact ⟨List.mem_append_left _ hev.1, List.mem_append_left _ hev.2.1,
        List.mem_append_left _ hev.2.2.1, List.mem_append_left _ hev.2.2.2⟩

/-- C5 witness: in the all-ok two-panel run there are exactly four
panel-detailing calls. -/
theorem C5_detail_called_twice_witness :
    ((generateComic (okEnv (sampleStory [1, 2])) sampleReq).2).isOk = true ∧
    (generateComic (okEnv (sampleStory [1, 2])) sampleReq).1.textCalls =
      2 * (sampleStory [1, 2]).panels.length :=
  ⟨by decide,
   (C5_detail_called_twice (okEnv (sampleStory [1, 2])) sampleReq (sampleStory [1, 2])
     rfl (by decide)).1⟩

/-! ## C9 -/

/-- C9, amended: a successful run writes exactly
`<workspace>/comics/comic-<T>/{story.json, panel-<id>.json per panel,
result.json}` and `<workspace>/images/panel-<id>.jpg` per panel, where
`T` is the ISO-8601 timestamp with its colons AND periods replaced by
dashes (the code's regex is `/[:.]/g`, so the `.` before the
milliseconds is replaced as well, not only the colons). -/
theorem C9_layout (env : Env) (req : ComicGenerationRequest) (story : ComicStory)
    (hstory : env.storyResp (storyUserPrompt req) = .ok story)
    (hok : ((generateComic env req).2).isOk = true) :
    fsHas (generateComic env req).1.fs (.storyJson (comicDirName env)) = true ∧
    fsHas (generateComic env req).1.fs (.resultJson (comicDirName env)) = true ∧
    (∀ p ∈ story.panels,
      fsHas (generateComic env req).1.fs (.panelJson (comicDirName env) p.id) = true ∧
      fsHas (generateComic env req).1.fs (.panelImage (toString p.id)) = true) ∧
    (∀ q, fsHas (generateComic env req).1.fs q = true →
      q = .storyJson (comicDirName env) ∨ q = .resultJson (comicDirName env) ∨
      ∃ p, p ∈ story.panels ∧
        (q = .panelJson (comicDirName env) p.id ∨ q = .panelImage (toString p.id))) ∧
    comicDirName env = "comic-" ++ sanitizeTimestamp env.isoDir ∧
    ((FsPath.storyJson (comicDirName env)).render env.cwd =
      workspaceDirOf env.cwd ++ "/" ++ "comics" ++ "/" ++ comicDirName env ++ "/" ++
        "story.json") ∧
    (∀ id : Int, (FsPath.panelJson (comicDirName env) id).render env.cwd =
      workspaceDirOf env.cwd ++ "/" ++ "comics" ++ "/" ++ comicDirName env ++ "/" ++
        ("panel-" ++ toString id ++ ".json")) ∧
    ((FsPath.resultJson (comicDirName env)).render env.cwd =
      workspaceDirOf env.cwd ++ "/" ++ "comics" ++ "/" ++ comicDirName env ++ "/" ++
        "result.json") ∧
    (∀ s : String, (FsPath.panelImage s).render env.cwd =
      workspaceDirOf env.cwd ++ "/" ++ "images" ++ "/" ++ ("panel-" ++ s ++ ".jpg")) := by
  cases hr : (generateComic env req).2 with
  | error e => rw [hr] at hok; cases hok
  | ok res =>
    obtain ⟨_, hw, _⟩ := generateComic_ok_inv env req story res hstory hr
    have hinitS : fsHas (initWorld env story).fs (.storyJson (comicDirName env)) = true := by
      rw [initWorld_fs]; simp [fsHas]
    rw [hw]
    simp only [worldWrite]
    refine ⟨?_, ?_, ?_, ?_, rfl, rfl, fun id => rfl, rfl, fun s => rfl⟩
    · exact fsHas_write_mono _ _ _ _ (successWorld_fs_mono _ _ _ _ _ _ hinitS)
    · exact fsHas_write_self _ _ _
    · intro p hp
      obtain ⟨hj, hi⟩ := successWorld_has_own env story.artStyle (comicDirName env)
        story.panels (initWorld env story) p hp
      exact ⟨fsHas_write_mono _ _ _ _ hj, fsHas_write_mono _ _ _ _ hi⟩
    · intro q hq
      rcases fsHas_write_sub _ _ _ _ hq with hq1 | hq1
      · exact Or.inr (Or.inl hq1)
      · rcases successWorld_fs_sub _ _ _ _ _ _ hq1 with hq2 | ⟨p, hp, hq3⟩
        · rw [initWorld_fs] at hq2
          simp [fsHas] at hq2
          cases hq2
          · exact Or.inl rfl
        · exact Or.inr (Or.inr ⟨p, hp, hq3⟩)

/-- C9 witness: in the all-ok run both `story.json` and `result.json`
exist in the timestamped comic directory. -/
theorem C9_layout_witness :
    ((generateComic (okEnv (sampleStory [1, 2])) sampleReq).2).isOk = true ∧
    fsHas (generateComic (okEnv (sampleStory [1, 2])) sampleReq).1.fs
      (.storyJson (comicDirName (okEnv (sampleStory [1, 2])))) = true :=
  ⟨by decide,
   (C9_layout (okEnv (sampleStory [1, 2])) sampleReq (sampleStory [1, 2]) rfl (by decide)).1⟩

/-- C9 counterexample: the spec's transform (colons only) does not name
the directory the code creates — the run's `story.json` lives under the
colons-AND-periods directory name, and no file exists at the spec's
colons-only name, because the ISO timestamp contains a period before the
milliseconds. -/
theorem C9_colons_only_counterexample :
    fsHas (generateComic (okEnv (sampleStory [1])) sampleReq).1.fs
      (.storyJson ("comic-" ++ sanitizeColonsOnly "2025-06-01T12:30:45.123Z")) = false ∧
    fsHas (generateComic (okEnv (sampleStory [1])) sampleReq).1.fs
      (.storyJson ("comic-" ++ sanitizeTimestamp "2025-06-01T12:30:45.123Z")) = true ∧
    sanitizeColonsOnly "2025-06-01T12:30:45.123Z" ≠
      sanitizeTimestamp "2025-06-01T12:30:45.123Z" := by
  exact ⟨by decide, by decide, by decide⟩

/-! ## C10 -/

/-- C10: on a successful run `generatedImages` is aligned with the
story's panels: entry i carries panel i's id, an `imageUrl` equal to
`file://` followed by the absolute image path, and an `imagePath` equal
to the working-directory-relative path of the same file. -/
theorem C10_images_aligned (env : Env) (req : ComicGenerationRequest) (story : ComicStory)
    (hstory : env.storyResp (storyUserPrompt req) = .ok story)
    (hok : ((generateComic env req).2).isOk = true) :
    ∃ imgs, ((generateComic env req).2).map (fun r => r.generatedImages) = .ok imgs ∧
      imgs.length = story.panels.length ∧
      ∀ i (hi : i < story.panels.length) (hi2 : i < imgs.length),
        (imgs.get ⟨i, hi2⟩).panelId = (story.panels.get ⟨i, hi⟩).id ∧
        (imgs.get ⟨i, hi2⟩).imageUrl = "file://" ++
          (imagesDirOf env.cwd ++ "/" ++
            ("panel-" ++ toString (story.panels.get ⟨i, hi⟩).id ++ ".jpg")) ∧
        (imgs.get ⟨i, hi2⟩).imagePath =
          ".workspace/images/" ++
            ("panel-" ++ toString (story.panels.get ⟨i, hi⟩).id ++ ".jpg") := by
  cases hr : (generateComic env req).2 with
  | error e => rw [hr] at hok; cases hok
  | ok res =>
    obtain ⟨hres, _, _⟩ := generateComic_ok_inv env req story res hstory hr
    refine ⟨story.panels.map (imgRec env.cwd), ?_, by simp, ?_⟩
    · simp [hr, hres, Except.map]
    · intro i hi hi2
      have hget : (story.panels.map (imgRec env.cwd)).get ⟨i, hi2⟩ =
          imgRec env.cwd (story.panels.get ⟨i, hi⟩) := by
        simp [List.get_map]
      rw [hget]
      refine ⟨rfl, rfl, ?_⟩
      show relativeTo env.cwd ((FsPath.panelImage
        (toString (story.panels.get ⟨i, hi⟩).id)).render env.cwd) = _
      rw [show (FsPath.panelImage (toString (story.panels.get ⟨i, hi⟩).id)).render env.cwd =
        imagesDirOf env.cwd ++ "/" ++
          ("panel-" ++ toString (story.panels.get ⟨i, hi⟩).id ++ ".jpg") from rfl]
      exact relativeTo_image env.cwd _

/-- C10 witness: the two-panel all-ok run has image records aligned with
the panels. -/
theorem C10_images_aligned_witness :
    ((generateComic (okEnv (sampleStory [1, 2])) sampleReq).2).isOk = true ∧
    ∃ imgs,
      ((generateComic (okEnv (sampleStory [1, 2])) sampleReq).2).map
        (fun r => r.generatedImages) = .ok imgs ∧
      imgs.length = (sampleStory [1, 2]).panels.length ∧
      ∀ i (hi : i < (sampleStory [1, 2]).panels.length) (hi2 : i < imgs.length),
        (imgs.get ⟨i, hi2⟩).panelId = ((sampleStory [1, 2]).panels.get ⟨i, hi⟩).id ∧
        (imgs.get ⟨i, hi2⟩).imageUrl = "file://" ++
          (imagesDirOf (okEnv (sampleStory [1, 2])).cwd ++ "/" ++
            ("panel-" ++ toString ((sampleStory [1, 2]).panels.get ⟨i, hi⟩).id ++ ".jpg")) ∧
        (imgs.get ⟨i, hi2⟩).imagePath =
          ".workspace/images/" ++
            ("panel-" ++ toString ((sampleStory [1, 2]).panels.get ⟨i, hi⟩).id ++ ".jpg") :=
  ⟨by decide,
   C10_images_aligned (okEnv (sampleStory [1, 2])) sampleReq (sampleStory [1, 2])
     rfl (by decide)⟩

/-! ## Facts about the world at the start of a failing panel -/

theorem fsShape_imagePres (fs : List (FsPath × FileContent)) (dir : String) (id : Int)
    (s : String) (fs' : List (FsPath × FileContent))
    (hshape : fs' = fs ∨ (∃ c1, fs' = fsWrite fs (.panelJson dir id) c1) ∨
      (∃ c1 c2, fs' = fsWrite (fsWrite fs (.panelJson dir id) c1) (.panelImage s) c2) ∨
      (∃ c1, fs' = fsErase
        (fsWrite (fsWrite fs (.panelJson dir id) c1) (.panelImage s) .emptyContent)
        (.panelImage s)))
    (q : FsPath) (hq : q ≠ FsPath.panelImage s) (h : fsHas fs q = true) :
    fsHas fs' q = true := by
  rcases hshape with hs | ⟨c1, hs⟩ | ⟨c1, c2, hs⟩ | ⟨c1, hs⟩ <;> subst hs
  · exact h
  · exact fsHas_write_mono _ _ _ _ h
  · exact fsHas_write_mono _ _ _ _ (fsHas_write_mono _ _ _ _ h)
  · rw [fsHas_erase_other _ _ _ hq]
    exact fsHas_write_mono _ _ _ _ (fsHas_write_mono _ _ _ _ h)

theorem takeGetMem (l : List ComicPanel) (k i : Nat) (hik : i < k) (hk : k < l.length) :
    l.get ⟨i, Nat.lt_trans hik hk⟩ ∈ l.take k := by
  have h2 : i < (l.take k).length := by
    simp [List.length_take]
    omega
  have heq : (l.take k).get ⟨i, h2⟩ = l.get ⟨i, Nat.lt_trans hik hk⟩ := by
    simp [List.get_take]
  rw [← heq]
  exact List.get_mem _ i h2

theorem wkFacts (env : Env) (story : ComicStory) (k : Nat)
    (hk : k < story.panels.length) :
    (successWorld env story.artStyle (comicDirName env) (story.panels.take k)
      (initWorld env story)).textCalls = 2 * k ∧
    (successWorld env story.artStyle (comicDirName env) (story.panels.take k)
      (initWorld env story)).fluxCalls = k ∧
    (successWorld env story.artStyle (comicDirName env) (story.panels.take k)
      (initWorld env story)).downloadCalls = k ∧
    fsHas (successWorld env story.artStyle (comicDirName env) (story.panels.take k)
      (initWorld env story)).fs (.storyJson (comicDirName env)) = true ∧
    fsHas (successWorld env story.artStyle (comicDirName env) (story.panels.take k)
      (initWorld env story)).fs (.resultJson (comicDirName env)) = false ∧
    ∀ i (hi : i < k),
      fsHas (successWorld env story.artStyle (comicDirName env) (story.panels.take k)
        (initWorld env story)).fs
        (.panelJson (comicDirName env) (story.panels.get ⟨i, Nat.lt_trans hi hk⟩).id) = true ∧
      fsHas (successWorld env story.artStyle (comicDirName env) (story.panels.take k)
        (initWorld env story)).fs
        (.panelImage (toString (story.panels.get ⟨i, Nat.lt_trans hi hk⟩).id)) = true := by
  obtain ⟨hc0, hc1, hc2⟩ := initWorld_counters env story
  have hlen : (story.panels.take k).length = k := by
    simp [List.length_take]
    omega
  refine ⟨?_, ?_, ?_, ?_, ?_, ?_⟩
  · rw [successWorld_textCalls, hc0, hlen]
    omega
  · rw [successWorld_fluxCalls, hc1, hlen]
    omega
  · rw [successWorld_downloadCalls, hc2, hlen]
    omega
  · exact successWorld_fs_mono _ _ _ _ _ _ (by rw [initWorld_fs]; simp [fsHas])
  · rw [successWorld_has_result, initWorld_fs]
    simp [fsHas]
  · intro i hi
    exact successWorld_has_own env story.artStyle (comicDirName env) _ (initWorld env story)
      _ (takeGetMem story.panels k i hi hk)

theorem mapNodupNe {α β : Type} (l : List α) (f : α → β) (h : (l.map f).Nodup)
    (i j : Nat) (hi : i < l.length) (hj : j < l.length) (hij : i ≠ j) :
    f (l.get ⟨i, hi⟩) ≠ f (l.get ⟨j, hj⟩) := by
  intro hc
  have hi' : i < (l.map f).length := by simp [hi]
  have hj' : j < (l.map f).length := by simp [hj]
  have hgi : (l.map f).get ⟨i, hi'⟩ = f (l.get ⟨i, hi⟩) := by simp [List.get_map]
  have hgj : (l.map f).get ⟨j, hj'⟩ = f (l.get ⟨j, hj⟩) := by simp [List.get_map]
  have : (⟨i, hi'⟩ : Fin (l.map f).length) = ⟨j, hj'⟩ :=
    (List.Nodup.get_inj_iff h).mp (by rw [hgi, hgj]; exact hc)
  exact hij (by simpa using congrArg Fin.val this)

/-! ## C2 -/

/-- C2, amended: panels are processed strictly in order; when panel k
(0-based) fails, panels after it are never detailed or rendered (at most
2k+2 text calls and k+1 flux/download calls happen), no `result.json` is
written, the error propagates, and `story.json` plus the files written
for panels before k remain on disk — the latter PROVIDED the panel ids
are pairwise distinct: with duplicate ids (which the schema does not rule
out) a failing panel's image cleanup can delete an earlier panel's image
file that lives at the same path. -/
theorem C2_failure_aborts (env : Env) (req : ComicGenerationRequest) (story : ComicStory)
    (k : Nat)
    (hstory : env.storyResp (storyUserPrompt req) = .ok story)
    (hk : k < story.panels.length)
    (hnodup : (story.panels.map fun p => toString p.id).Nodup)
    (hok : ∀ i (hi : i < k),
      stepOk env story.artStyle (story.panels.get ⟨i, Nat.lt_trans hi hk⟩) (2 * i) i i = true)
    (hfail : stepOk env story.artStyle (story.panels.get ⟨k, hk⟩) (2 * k) k k = false) :
    (∃ e, (generateComic env req).2 = .error e) ∧
    fsHas (generateComic env req).1.fs (.resultJson (comicDirName env)) = false ∧
    fsHas (generateComic env req).1.fs (.storyJson (comicDirName env)) = true ∧
    (∀ i (hi : i < k),
      fsHas (generateComic env req).1.fs
        (.panelJson (comicDirName env) (story.panels.get ⟨i, Nat.lt_trans hi hk⟩).id) = true ∧
      fsHas (generateComic env req).1.fs
        (.panelImage (toString (story.panels.get ⟨i, Nat.lt_trans hi hk⟩).id)) = true) ∧
    (generateComic env req).1.textCalls ≤ 2 * k + 2 ∧
    (generateComic env req).1.fluxCalls ≤ k + 1 ∧
    (generateComic env req).1.downloadCalls ≤ k + 1 := by
  obtain ⟨e, hsnd, hrun⟩ := generateComic_fail_at env req story k hstory hk hok hfail
  obtain ⟨hwt, hwf, hwd, hstoryHas, hresHas, hpanels⟩ := wkFacts env story k hk
  obtain ⟨hshape, _, ht2, _, hf2, _, hd2, _⟩ := panelStep_shape env story.artStyle
    (comicDirName env) (story.panels.get ⟨k, hk⟩)
    (successWorld env story.artStyle (comicDirName env) (story.panels.take k)
      (initWorld env story))
  obtain ⟨hpres, _, _, hresultPres⟩ := fsShape_props _ (comicDirName env)
    (story.panels.get ⟨k, hk⟩).id (toString (story.panels.get ⟨k, hk⟩).id) _ hshape
  refine ⟨⟨e, by rw [hrun]⟩, ?_, ?_, ?_, ?_, ?_, ?_⟩
  · rw [hrun]
    rw [hresultPres (comicDirName env)]
    exact hresHas
  · rw [hrun]
    exact hpres _ (by simp [isImagePath]) hstoryHas
  · intro i hi
    constructor
    · rw [hrun]
      exact hpres _ (by simp [isImagePath]) (hpanels i hi).1
    · rw [hrun]
      refine fsShape_imagePres _ (comicDirName env) (story.panels.get ⟨k, hk⟩).id
        (toString (story.panels.get ⟨k, hk⟩).id) _ hshape _ ?_ (hpanels i hi).2
      have hne := mapNodupNe story.panels (fun p => toString p.id) hnodup i k
        (Nat.lt_trans hi hk) hk (Nat.ne_of_lt hi)
      simp only [ne_eq, FsPath.panelImage.injEq]
      exact hne
  · rw [hrun]
    calc (panelStep env story.artStyle (comicDirName env) (story.panels.get ⟨k, hk⟩)
        (successWorld env story.artStyle (comicDirName env) (story.panels.take k)
          (initWorld env story))).1.textCalls ≤ _ + 2 := ht2
    _ = 2 * k + 2 := by rw [hwt]
  · rw [hrun]
    calc (panelStep env story.artStyle (comicDirName env) (story.panels.get ⟨k, hk⟩)
        (successWorld env story.artStyle (comicDirName env) (story.panels.take k)
          (initWorld env story))).1.fluxCalls ≤ _ + 1 := hf2
    _ = k + 1 := by rw [hwf]
  · rw [hrun]
    calc (panelStep env story.artStyle (comicDirName env) (story.panels.get ⟨k, hk⟩)
        (successWorld env story.artStyle (comicDirName env) (story.panels.take k)
          (initWorld env story))).1.downloadCalls ≤ _ + 1 := hd2
    _ = k + 1 := by rw [hwd]

/-- Environment of the spec scenario: a four-panel story whose second
image download answers HTTP 404. -/
def env404 : Env :=
  { okEnv (sampleStory [1, 2, 3, 4]) with
    downloadResp := fun d => if d = 1 then .badStatus 404 else .ok "jpegbytes" }

/-- C2 witness: the spec scenario — download HTTP 404 on panel 2 of 4
aborts the run: the error surfaces, panel 1's files exist, no
`result.json`, and panels 3..4 are never detailed or rendered. -/
theorem C2_failure_aborts_witness :
    stepOk env404 (sampleStory [1, 2, 3, 4]).artStyle
      ((sampleStory [1, 2, 3, 4]).panels.get ⟨1, by decide⟩) (2 * 1) 1 1 = false ∧
    (∃ e, (generateComic env404 sampleReq).2 = .error e) ∧
    fsHas (generateComic env404 sampleReq).1.fs
      (.resultJson (comicDirName env404)) = false ∧
    (generateComic env404 sampleReq).1.textCalls ≤ 2 * 1 + 2 :=
  ⟨by decide,
   (C2_failure_aborts env404 sampleReq (sampleStory [1, 2, 3, 4]) 1 rfl (by decide)
     (by decide) (by decide) (by decide)).1,
   (C2_failure_aborts env404 sampleReq (sampleStory [1, 2, 3, 4]) 1 rfl (by decide)
     (by decide) (by decide) (by decide)).2.1,
   (C2_failure_aborts env404 sampleReq (sampleStory [1, 2, 3, 4]) 1 rfl (by decide)
     (by decide) (by decide) (by decide)).2.2.2.2.1⟩

/-- Environment for the C2 counterexample: two panels share id 1; the
first download succeeds, the second fails with a write error. -/
def envC2cx : Env :=
  { okEnv (sampleStory [1, 1]) with
    downloadResp := fun d => if d = 0 then .ok "jpegbytes" else .writeErr "disk full" }

/-- C2 counterexample: with duplicate panel ids, the failing panel's
cleanup unlinks the image path it shares with the already-completed
panel 1 — panel 1's image file was written during the run (the write is
in the trace) but no longer exists when the error propagates, so the
claim that files of panels 1..k-1 always remain is false as stated. -/
theorem C2_duplicate_id_delete_counterexample :
    (generateComic envC2cx sampleReq).2 = .error "disk full" ∧
    Event.writeFile (.panelImage "1") (.imageContent "jpegbytes")
      ∈ (generateComic envC2cx sampleReq).1.trace ∧
    fsHas (generateComic envC2cx sampleReq).1.fs (.panelImage "1") = false := by
  exact ⟨by decide, by decide, by decide⟩

/-! ## C4 -/

/-- C4: if the image service's result locator for panel k is missing or
not a string, the run fails with the descriptive error
"Invalid output from Replicate API", writes no `result.json`, and every
file completed for earlier panels (panel JSON and image alike) remains on
disk — this failure mode performs no cleanup, so no path is deleted. -/
theorem C4_invalid_locator (env : Env) (req : ComicGenerationRequest) (story : ComicStory)
    (k : Nat) (d1 d2 : String) (href : ReplicateHref)
    (hstory : env.storyResp (storyUserPrompt req) = .ok story)
    (hk : k < story.panels.length)
    (hok : ∀ i (hi : i < k),
      stepOk env story.artStyle (story.panels.get ⟨i, Nat.lt_trans hi hk⟩) (2 * i) i i = true)
    (h1 : env.textResp (2 * k)
      (detailPromptFor (story.panels.get ⟨k, hk⟩) story.artStyle) = .ok d1)
    (h2 : env.textResp (2 * k + 1)
      (detailPromptFor (story.panels.get ⟨k, hk⟩) story.artStyle) = .ok d2)
    (h3 : env.fluxResp k = .ok href)
    (h4 : (∃ b, href = .nonStringVal b) ∨ href = .missingVal) :
    (generateComic env req).2 = .error "Invalid output from Replicate API" ∧
    fsHas (generateComic env req).1.fs (.resultJson (comicDirName env)) = false ∧
    ∀ i (hi : i < k),
      fsHas (generateComic env req).1.fs
        (.panelJson (comicDirName env) (story.panels.get ⟨i, Nat.lt_trans hi hk⟩).id) = true ∧
      fsHas (generateComic env req).1.fs
        (.panelImage (toString (story.panels.get ⟨i, Nat.lt_trans hi hk⟩).id)) = true := by
  have hhref := hrefToUrl_not_string href h4
  have hfail : stepOk env story.artStyle (story.panels.get ⟨k, hk⟩) (2 * k) k k = false := by
    simp [stepOk, h1, h2, h3, hhref]
  obtain ⟨e, hsnd, hrun⟩ := generateComic_fail_at env req story k hstory hk hok hfail
  obtain ⟨hwt, hwf, hwd, hstoryHas, hresHas, hpanels⟩ := wkFacts env story k hk
  obtain ⟨hfs, hsnd2⟩ := panelStep_href_invalid env story.artStyle (comicDirName env)
    (story.panels.get ⟨k, hk⟩)
    (successWorld env story.artStyle (comicDirName env) (story.panels.take k)
      (initWorld env story)) d1 d2 href
    (by rw [hwt]; exact h1) (by rw [hwt]; exact h2) (by rw [hwf]; exact h3) hhref
  have he : e = "Invalid output from Replicate API" := by
    rw [hsnd] at hsnd2
    exact (Except.error.injEq _ _).mp hsnd2
  refine ⟨?_, ?_, ?_⟩
  · rw [hrun, he]
  · rw [hrun, hfs]
    rw [fsHas_write_other _ _ _ _ (by simp)]
    exact hresHas
  · intro i hi
    rw [hrun, hfs]
    exact ⟨fsHas_write_mono _ _ _ _ (hpanels i hi).1,
      fsHas_write_mono _ _ _ _ (hpanels i hi).2⟩

/-- Environment for C4: two panels; the second `replicate.run` call
yields a missing (`undefined`) locator. -/
def envC4 : Env :=
  { okEnv (sampleStory [1, 2]) with
    fluxResp := fun f =>
      if f = 1 then .ok .missingVal else .ok (.strVal "https://img.example/out.jpg") }

/-- C4 witness: a missing locator on panel 2 of 2 aborts with the
descriptive error, writes no `result.json`, and panel 1's files remain. -/
theorem C4_invalid_locator_witness :
    envC4.fluxResp 1 = .ok .missingVal ∧
    (generateComic envC4 sampleReq).2 = .error "Invalid output from Replicate API" ∧
    fsHas (generateComic envC4 sampleReq).1.fs (.resultJson (comicDirName envC4)) = false :=
  ⟨rfl,
   (C4_invalid_locator envC4 sampleReq (sampleStory [1, 2]) 1 "detail-2" "detail-3"
     .missingVal rfl (by decide) (by decide) (by decide) (by decide) rfl
     (Or.inr rfl)).1,
   (C4_invalid_locator envC4 sampleReq (sampleStory [1, 2]) 1 "detail-2" "detail-3"
     .missingVal rfl (by decide) (by decide) (by decide) (by decide) rfl
     (Or.inr rfl)).2.1⟩

/-! ## C7 -/

/-- C7, amended: a failed download is fatal to the whole request in both
failure modes, but the partially written file is deleted only when the
write stream errors while saving; on a non-200 response the code rejects
WITHOUT unlinking, so the file created at the target path by opening the
write stream remains on disk. -/
theorem C7_download_failure (env : Env) (req : ComicGenerationRequest) (story : ComicStory)
    (k : Nat) (d1 d2 : String) (href : ReplicateHref) (url : String)
    (hstory : env.storyResp (storyUserPrompt req) = .ok story)
    (hk : k < story.panels.length)
    (hok : ∀ i (hi : i < k),
      stepOk env story.artStyle (story.panels.get ⟨i, Nat.lt_trans hi hk⟩) (2 * i) i i = true)
    (h1 : env.textResp (2 * k)
      (detailPromptFor (story.panels.get ⟨k, hk⟩) story.artStyle) = .ok d1)
    (h2 : env.textResp (2 * k + 1)
      (detailPromptFor (story.panels.get ⟨k, hk⟩) story.artStyle) = .ok d2)
    (h3 : env.fluxResp k = .ok href)
    (h4 : hrefToUrl href = .ok url) :
    (∀ code : Nat, env.downloadResp k = .badStatus code →
      (generateComic env req).2 = .error ("Failed to download image: " ++ toString code) ∧
      fsHas (generateComic env req).1.fs
        (.panelImage (toString (story.panels.get ⟨k, hk⟩).id)) = true) ∧
    (∀ msg : String, env.downloadResp k = .writeErr msg →
      (generateComic env req).2 = .error msg ∧
      fsHas (generateComic env req).1.fs
        (.panelImage (toString (story.panels.get ⟨k, hk⟩).id)) = false) := by
  obtain ⟨hwt, hwf, hwd, hstoryHas, hresHas, hpanels⟩ := wkFacts env story k hk
  constructor
  · intro code h5
    have hfail : stepOk env story.artStyle (story.panels.get ⟨k, hk⟩) (2 * k) k k = false := by
      simp [stepOk, h1, h2, h3, h4, h5]
    obtain ⟨e, hsnd, hrun⟩ := generateComic_fail_at env req story k hstory hk hok hfail
    obtain ⟨hfs, hsnd2⟩ := panelStep_badStatus env story.artStyle (comicDirName env)
      (story.panels.get ⟨k, hk⟩)
      (successWorld env story.artStyle (comicDirName env) (story.panels.take k)
        (initWorld env story)) d1 d2 href url code
      (by rw [hwt]; exact h1) (by rw [hwt]; exact h2) (by rw [hwf]; exact h3) h4
      (by rw [hwd]; exact h5)
    have he : e = "Failed to download image: " ++ toString code := by
      rw [hsnd] at hsnd2
      exact (Except.error.injEq _ _).mp hsnd2
    refine ⟨by rw [hrun, he], ?_⟩
    rw [hrun, hfs]
    exact fsHas_write_self _ _ _
  · intro msg h5
    have hfail : stepOk env story.artStyle (story.panels.get ⟨k, hk⟩) (2 * k) k k = false := by
      simp [stepOk, h1, h2, h3, h4, h5]
    obtain ⟨e, hsnd, hrun⟩ := generateComic_fail_at env req story k hstory hk hok hfail
    obtain ⟨hfs, hsnd2⟩ := panelStep_writeErr env story.artStyle (comicDirName env)
      (story.panels.get ⟨k, hk⟩)
      (successWorld env story.artStyle (comicDirName env) (story.panels.take k)
        (initWorld env story)) d1 d2 href url msg
      (by rw [hwt]; exact h1) (by rw [hwt]; exact h2) (by rw [hwf]; exact h3) h4
      (by rw [hwd]; exact h5)
    have he : e = msg := by
      rw [hsnd] at hsnd2
      exact (Except.error.injEq _ _).mp hsnd2
    refine ⟨by rw [hrun, he], ?_⟩
    rw [hrun, hfs]
    exact fsHas_erase_self _ _

/-- Environment for C7: a single panel whose download answers HTTP 404. -/
def envC7 : Env :=
  { okEnv (sampleStory [1]) with downloadResp := fun _ => .badStatus 404 }

/-- C7 witness: the 404 download aborts the run with the status in the
message; the write-error mode (second conjunct) is covered vacuously by
the same application. -/
theorem C7_download_failure_witness :
    envC7.downloadResp 0 = .badStatus 404 ∧
    (generateComic envC7 sampleReq).2 = .error ("Failed to download image: " ++ toString 404) ∧
    fsHas (generateComic envC7 sampleReq).1.fs (.panelImage "1") = true :=
  ⟨rfl,
   ((C7_download_failure envC7 sampleReq (sampleStory [1]) 0 "detail-0" "detail-1"
     (.strVal "https://img.example/out.jpg") "https://img.example/out.jpg" rfl (by decide)
     (by decide) rfl rfl rfl rfl).1 404 rfl).1,
   ((C7_download_failure envC7 sampleReq (sampleStory [1]) 0 "detail-0" "detail-1"
     (.strVal "https://img.example/out.jpg") "https://img.example/out.jpg" rfl (by decide)
     (by decide) rfl rfl rfl rfl).1 404 rfl).2⟩

/-- C7 counterexample: after the 404-failed download the file at the
target path still exists (with empty content) — it is NOT deleted before
the error propagates, contrary to the claim. -/
theorem C7_not_deleted_counterexample :
    (generateComic envC7 sampleReq).2 = .error "Failed to download image: 404" ∧
    fsHas (generateComic envC7 sampleReq).1.fs (.panelImage "1") = true ∧
    fsGet (generateComic envC7 sampleReq).1.fs (.panelImage "1") = some .emptyContent := by
  exact ⟨by decide, by decide, by decide⟩
